import Mathlib

/-!
# Snake simulation engine (`src/app.js`): shallow embedding

The module-level variables of `app.js` become the fields of one `State` record and every
function of the engine becomes a function on that record.

* Coordinates, directions are `Int`; counters (`score`, `combo`, `foodCollected`, the grid
  size) are `Nat`: they start at a natural number and are only ever incremented.
* Clock values (`performance.now()`, milliseconds), `elapsedTime`, `speed` are exact
  rationals: the embedding idealises IEEE doubles by `ℚ`.
* `Math.random()` is a stream `rnd : Nat → UnitDraw` of rationals in `[0, 1)`; the field
  `drawn` counts how many values have been consumed so far.
* `performance.now()` is an argument `now` of `tick`, the value the clock would return.
* `tick` returns `none` in the two situations where the JavaScript leaves the integer
  model: `snake[0]` of an empty snake (a `TypeError`), and `x % 0` (a `NaN`) when wrap is
  enabled on a grid of size 0.
* The `while` loop of the frame callback `loop` takes an iteration bound `fuel`; it returns
  `none` when the bound is reached, and a result it returns is the same for every larger
  bound.
* DOM, audio, rendering and persistence calls have no effect on the engine state and are
  dropped; of the overlay only the subtitle (the end reason) is kept.
-/

namespace Snake

/-- Grid cell `{ x, y }`; directions are stored in the same shape. -/
structure Cell where
  x : Int
  y : Int
deriving DecidableEq, Repr

/-- The five entries of `MODES` (by `id`). -/
inductive Mode where
  | classic
  | rush
  | labyrinth
  | portals
  | time
deriving DecidableEq, Repr

/-- The four texts `tick` passes to `endGame`. -/
inductive Reason where
  | timeExpired
  | wall
  | selfCollision
  | obstacle
deriving DecidableEq, Repr

/-- Values of `overlaySubtitle.textContent`. -/
inductive Subtitle where
  | ready
  | pauseText
  | resumeText
  | ended (reason : Reason)
deriving DecidableEq, Repr

/-- The table `stats.bestByMode`. -/
structure BestByMode where
  classic : Nat
  rush : Nat
  labyrinth : Nat
  portals : Nat
  time : Nat
deriving DecidableEq, Repr

/-- Lookup `stats.bestByMode[mode]`. -/
def BestByMode.get (b : BestByMode) : Mode → Nat
  | Mode.classic => b.classic
  | Mode.rush => b.rush
  | Mode.labyrinth => b.labyrinth
  | Mode.portals => b.portals
  | Mode.time => b.time

/-- Assignment `stats.bestByMode[mode] = v`. -/
def BestByMode.set (b : BestByMode) (m : Mode) (v : Nat) : BestByMode :=
  match m with
  | Mode.classic => { b with classic := v }
  | Mode.rush => { b with rush := v }
  | Mode.labyrinth => { b with labyrinth := v }
  | Mode.portals => { b with portals := v }
  | Mode.time => { b with time := v }

/-- The object `stats`. -/
structure Stats where
  gamesPlayed : Nat
  totalFood : Nat
  totalTime : ℚ
  maxLength : Nat
  bestByMode : BestByMode
deriving DecidableEq

/-- The module state of `app.js`: the settings the engine reads, the statistics, and the
session variables. -/
structure State where
  /-- Field `settings.mode`. -/
  mode : Mode
  /-- Field `settings.speed`. -/
  settingsSpeed : ℚ
  /-- Field `settings.wrap`. -/
  wrap : Bool
  stats : Stats
  gridSize : Nat
  snake : List Cell
  direction : Cell
  directionQueue : List Cell
  food : Cell
  obstacles : List Cell
  portals : List Cell
  score : Nat
  combo : Nat
  lastFoodTimestamp : ℚ
  foodCollected : Nat
  running : Bool
  paused : Bool
  elapsedTime : ℚ
  timeLimit : ℚ
  speed : ℚ
  lastFrame : ℚ
  accumulator : ℚ
  overlaySubtitle : Subtitle
  /-- Number of `Math.random()` values consumed so far. -/
  drawn : Nat
deriving DecidableEq

/-- A value `Math.random()` can return: a number in `[0, 1)`. -/
abbrev UnitDraw := { r : ℚ // 0 ≤ r ∧ r < 1 }

/-- The sequence of values returned by successive calls of `Math.random()`. -/
abbrev Rng := Nat → UnitDraw

/-- Test `a.x === b.x && a.y === b.y` used throughout `app.js`. -/
def sameCell (a b : Cell) : Bool := a.x == b.x && a.y == b.y

/-- Source `randomCell()`, reading the draws number `pos` (for `x`) and `pos + 1` (for `y`). -/
def randomCell (rnd : Rng) (gridSize : Nat) (pos : Nat) : Cell :=
  { x := Rat.floor ((rnd pos).val * (gridSize : ℚ)),
    y := Rat.floor ((rnd (pos + 1)).val * (gridSize : ℚ)) }

/-- The `occupied` test of `randomEmptyCell`. -/
def occupiedCell (s : State) (cell : Cell) : Bool :=
  s.snake.any (fun segment => sameCell segment cell) ||
    s.obstacles.any (fun block => sameCell block cell) ||
    s.portals.any (fun portal => sameCell portal cell)

/-- The `while (guard < 400)` loop of `randomEmptyCell`; `budget` is `400 - guard`. The
result is the cell and the position in the random stream after the loop. -/
def randomEmptyCellLoop (rnd : Rng) (s : State) : Nat → Nat → Cell × Nat
  | 0, pos => ({ x := 1, y := 1 }, pos)
  | budget + 1, pos =>
    let cell := randomCell rnd s.gridSize pos
    if occupiedCell s cell then randomEmptyCellLoop rnd s budget (pos + 2)
    else (cell, pos + 2)

/-- Source `randomEmptyCell()`. -/
def randomEmptyCell (rnd : Rng) (s : State) : Cell × Nat :=
  randomEmptyCellLoop rnd s 400 s.drawn

/-- Source `spawnFood()`. -/
def spawnFood (rnd : Rng) (s : State) : State :=
  { s with food := (randomEmptyCell rnd s).1, drawn := (randomEmptyCell rnd s).2 }

/-- The constant `target` of `generateObstacles`: `Math.floor(gridSize * gridSize * 0.08)`. -/
def obstacleTarget (gridSize : Nat) : Nat := gridSize * gridSize * 8 / 100

/-- The constant `isNearStart` of `generateObstacles`. -/
def isNearStart (gridSize : Nat) (cell : Cell) : Bool :=
  decide (|cell.x - ((gridSize / 2 : Nat) : Int)| < 3) &&
    decide (|cell.y - ((gridSize / 2 : Nat) : Int)| < 3)

/-- The loop of `generateObstacles`. `budget` is `target * 8 - guard`, so the test
`guard < target * 8` is `budget ≠ 0`; `pos0` is the stream position at entry. The result is
the list `blocks` and the final value of `guard`. -/
def generateObstaclesLoop (rnd : Rng) (gridSize : Nat) (snake : List Cell) (pos0 : Nat) :
    Nat → Nat → List Cell → List Cell × Nat
  | 0, guard, blocks => (blocks, guard)
  | budget + 1, guard, blocks =>
    if blocks.length < obstacleTarget gridSize then
      let cell := randomCell rnd gridSize (pos0 + 2 * guard)
      let occupied := blocks.any (fun block => sameCell block cell) ||
        snake.any (fun segment => sameCell segment cell)
      if !isNearStart gridSize cell && !occupied then
        generateObstaclesLoop rnd gridSize snake pos0 budget (guard + 1) (blocks ++ [cell])
      else
        generateObstaclesLoop rnd gridSize snake pos0 budget (guard + 1) blocks
    else (blocks, guard)

/-- Source `generateObstacles()`: the blocks, and the number of cells drawn (`guard`). -/
def generateObstacles (rnd : Rng) (gridSize : Nat) (snake : List Cell) (pos0 : Nat) :
    List Cell × Nat :=
  generateObstaclesLoop rnd gridSize snake pos0 (obstacleTarget gridSize * 8) 0 []

/-- The loop of `growObstacles`; `budget` is `120 - guard`. The cap is
`Math.floor(gridSize * gridSize * 0.1)`. -/
def growObstaclesLoop (rnd : Rng) (s : State) (pos0 : Nat) :
    Nat → Nat → List Cell → List Cell × Nat
  | 0, guard, blocks => (blocks, guard)
  | budget + 1, guard, blocks =>
    if blocks.length < s.gridSize * s.gridSize / 10 then
      let cell := randomCell rnd s.gridSize (pos0 + 2 * guard)
      let occupied := blocks.any (fun block => sameCell block cell) ||
        s.snake.any (fun segment => sameCell segment cell) ||
        sameCell cell s.food
      if !occupied then (blocks ++ [cell], guard + 1)
      else growObstaclesLoop rnd s pos0 budget (guard + 1) blocks
    else (blocks, guard)

/-- Source `growObstacles(existing)`: the blocks, and the number of cells drawn. -/
def growObstacles (rnd : Rng) (s : State) (existing : List Cell) : List Cell × Nat :=
  growObstaclesLoop rnd s s.drawn 120 0 existing

/-- The retry loop of `generatePortals`; `budget` is `20 - guard`. -/
def generatePortalsLoop (rnd : Rng) (s : State) (first : Cell) :
    Nat → Cell → Nat → Cell × Nat
  | 0, second, pos => (second, pos)
  | budget + 1, second, pos =>
    if sameCell second first then
      generatePortalsLoop rnd s first budget (randomEmptyCellLoop rnd s 400 pos).1
        (randomEmptyCellLoop rnd s 400 pos).2
    else (second, pos)

/-- Source `generatePortals()`: the pair, and the stream position afterwards. While it runs
the variable `portals` still holds its old value (in `s`). -/
def generatePortals (rnd : Rng) (s : State) : List Cell × Nat :=
  let first := randomEmptyCellLoop rnd s 400 s.drawn
  let second := randomEmptyCellLoop rnd s 400 first.2
  let final := generatePortalsLoop rnd s first.1 20 second.1 second.2
  ([first.1, final.1], final.2)

/-- Source `resetState()`. -/
def resetState (rnd : Rng) (s : State) : State :=
  let center : Int := ((s.gridSize / 2 : Nat) : Int)
  let s1 : State :=
    { s with
      running := false
      paused := false
      accumulator := 0
      snake := [{ x := center, y := center }, { x := center - 1, y := center },
        { x := center - 2, y := center }]
      direction := { x := 1, y := 0 }
      directionQueue := []
      score := 0
      combo := 1
      lastFoodTimestamp := 0
      foodCollected := 0
      elapsedTime := 0
      timeLimit := if s.mode = Mode.time then 90 else 0
      speed := s.settingsSpeed
      obstacles := []
      portals := [] }
  let s2 : State :=
    if s1.mode = Mode.labyrinth then
      { s1 with
        obstacles := (generateObstacles rnd s1.gridSize s1.snake s1.drawn).1
        drawn := s1.drawn + 2 * (generateObstacles rnd s1.gridSize s1.snake s1.drawn).2 }
    else s1
  let s3 : State :=
    if s2.mode = Mode.portals then
      { s2 with portals := (generatePortals rnd s2).1, drawn := (generatePortals rnd s2).2 }
    else s2
  { spawnFood rnd s3 with overlaySubtitle := Subtitle.ready }

/-- Source `startGame()`; `now` is the value of `performance.now()`. -/
def startGame (rnd : Rng) (s : State) (now : ℚ) : State :=
  if s.running then s
  else { resetState rnd s with running := true, paused := false, lastFrame := now }

/-- Source `endGame(reason)`. -/
def endGame (s : State) (reason : Reason) : State :=
  { s with
    running := false
    paused := false
    stats :=
      { gamesPlayed := s.stats.gamesPlayed + 1
        totalFood := s.stats.totalFood + s.foodCollected
        totalTime := s.stats.totalTime + s.elapsedTime
        maxLength := max s.stats.maxLength s.snake.length
        bestByMode := s.stats.bestByMode.set s.mode (max (s.stats.bestByMode.get s.mode) s.score) }
    overlaySubtitle := Subtitle.ended reason }

/-- The constant `last` of `handleDirection`:
`directionQueue.length ? directionQueue[directionQueue.length - 1] : direction`. -/
def lastDirection (s : State) : Cell :=
  match s.directionQueue.getLast? with
  | some d => d
  | none => s.direction

/-- Source `handleDirection(x, y)`. -/
def handleDirection (s : State) (x y : Int) : State :=
  let next : Cell := { x := x, y := y }
  let last : Cell := lastDirection s
  if next.x = -last.x ∧ next.y = -last.y then s
  else if next.x = last.x ∧ next.y = last.y then s
  else if s.directionQueue.length < 2 then
    { s with directionQueue := s.directionQueue ++ [next] }
  else s

/-- Wrap branch of `tick`: `head.x = (head.x + gridSize) % gridSize`, likewise `head.y`;
the JavaScript `%` is the truncated remainder `Int.tmod`. -/
def wrapCell (gridSize : Nat) (head : Cell) : Cell :=
  { x := Int.tmod (head.x + gridSize) gridSize, y := Int.tmod (head.y + gridSize) gridSize }

/-- Wall test of `tick`:
`head.x < 0 || head.x >= gridSize || head.y < 0 || head.y >= gridSize`. -/
def outOfBounds (gridSize : Nat) (head : Cell) : Bool :=
  decide (head.x < 0) || decide (head.x ≥ (gridSize : Int)) ||
    decide (head.y < 0) || decide (head.y ≥ (gridSize : Int))

/-- Portal block of `tick` (`if (portals.length === 2) ...`). -/
def teleport (portals : List Cell) (head : Cell) : Cell :=
  match portals with
  | [p0, p1] =>
    if sameCell head p0 then p1
    else if sameCell head p1 then p0
    else head
  | _ => head

/-- The food branch of `tick`, entered after `snake.unshift(head)` when the head is on the
food cell. `Math.round(10 * combo)` is `10 * combo` for the integer `combo`. -/
def eatFood (rnd : Rng) (s : State) (now : ℚ) : State :=
  let combo : Nat := if now - s.lastFoodTimestamp < 2800 then min (s.combo + 1) 6 else 1
  let s1 : State :=
    { s with
      combo := combo
      lastFoodTimestamp := now
      score := s.score + 10 * combo
      foodCollected := s.foodCollected + 1 }
  let s2 : State :=
    if s1.mode = Mode.rush then { s1 with speed := min (s1.speed + 3 / 10) 18 } else s1
  let s3 : State :=
    if s2.mode = Mode.labyrinth ∧ s2.score % 30 = 0 then
      { s2 with
        obstacles := (growObstacles rnd s2 s2.obstacles).1
        drawn := s2.drawn + 2 * (growObstacles rnd s2 s2.obstacles).2 }
    else s2
  spawnFood rnd s3

/-- The part of `tick` after the portal block: self-collision, obstacle collision,
`snake.unshift(head)`, then the food branch or `snake.pop()`. -/
def moveTo (rnd : Rng) (s : State) (head : Cell) (now : ℚ) : State :=
  if s.snake.any (fun segment => sameCell segment head) then
    endGame s Reason.selfCollision
  else if s.obstacles.any (fun block => sameCell block head) then
    endGame s Reason.obstacle
  else if sameCell head s.food then
    eatFood rnd { s with snake := head :: s.snake } now
  else
    { s with snake := (head :: s.snake).dropLast }

/-- The dequeue step of `tick`: `if (directionQueue.length) direction = directionQueue.shift()`. -/
def shiftDirection (s : State) : State :=
  match s.directionQueue with
  | [] => s
  | d :: rest => { s with direction := d, directionQueue := rest }

/-- Head computation of `tick`: `{ x: snake[0].x + direction.x, y: snake[0].y + direction.y }`;
`none` when `snake[0]` does not exist. -/
def rawHead (s : State) : Option Cell :=
  match s.snake with
  | [] => none
  | seg0 :: _ => some { x := seg0.x + s.direction.x, y := seg0.y + s.direction.y }

/-- First statement of `tick`: `elapsedTime += step`. -/
def advanceClock (s : State) (step : ℚ) : State :=
  { s with elapsedTime := s.elapsedTime + step }

/-- Source `tick(step)`; `now` is the value `performance.now()` would return. -/
def tick (rnd : Rng) (s : State) (step now : ℚ) : Option State :=
  let s1 : State := advanceClock s step
  if s1.mode = Mode.time ∧ s1.elapsedTime ≥ s1.timeLimit then
    some (endGame s1 Reason.timeExpired)
  else
    let s2 := shiftDirection s1
    match rawHead s2 with
    | none => none
    | some head =>
      if s2.wrap then
        if s2.gridSize = 0 then none
        else some (moveTo rnd s2 (teleport s2.portals (wrapCell s2.gridSize head)) now)
      else if outOfBounds s2.gridSize head then
        some (endGame s2 Reason.wall)
      else some (moveTo rnd s2 (teleport s2.portals head) now)

/-- The `while (accumulator >= step)` loop of `loop`, whose body is
`tick(step); accumulator -= step;`. The test reads `accumulator` and `step` only. `k` counts
the ticks already run in this frame and `clock k` is the value of `performance.now()` during
tick number `k`. `fuel` bounds the number of iterations: the result is `none` when a tick is
undefined or when the test still holds after `fuel` iterations. -/
def tickLoop (rnd : Rng) (step : ℚ) (clock : Nat → ℚ) : Nat → Nat → State → Option State
  | 0, _, s => if s.accumulator ≥ step then none else some s
  | fuel + 1, k, s =>
    if s.accumulator ≥ step then
      (tick rnd s step (clock k)).bind fun t =>
        tickLoop rnd step clock fuel (k + 1) { t with accumulator := t.accumulator - step }
    else some s

/-- Source `loop(timestamp)`, the frame callback. `const step = 1 / speed` is computed once
per frame; for `speed = 0` it is `Infinity` in JavaScript, so the loop body never runs.
`render()` and `requestAnimationFrame(loop)` do not change the engine state. -/
def loop (rnd : Rng) (s : State) (timestamp : ℚ) (clock : Nat → ℚ) (fuel : Nat) :
    Option State :=
  if !s.running then some s
  else if s.paused then some { s with lastFrame := timestamp }
  else
    let delta : ℚ := (timestamp - s.lastFrame) / 1000
    let s1 : State := { s with lastFrame := timestamp, accumulator := s.accumulator + delta }
    if s1.speed = 0 then some s1
    else tickLoop rnd (1 / s1.speed) clock fuel 0 s1

/-! ## Vocabulary of the statements -/

/-- The tick from `s` to `t` called `endGame`: it is the only code that changes
`stats.gamesPlayed`, which it increments. -/
def Ended (s t : State) : Prop := t.stats.gamesPlayed = s.stats.gamesPlayed + 1

/-- The tick from `s` to `t` called `endGame(reason)`. -/
def EndedWith (s t : State) (reason : Reason) : Prop :=
  Ended s t ∧ t.overlaySubtitle = Subtitle.ended reason ∧ t.running = false

instance (s t : State) : Decidable (Ended s t) := by
  unfold Ended; infer_instance

instance (s t : State) (reason : Reason) : Decidable (EndedWith s t reason) := by
  unfold EndedWith; infer_instance

/-- The tick from `s` to `t` took the food branch: it is the only code that changes
`foodCollected`, which it increments. -/
def Pickup (s t : State) : Prop := t.foodCollected = s.foodCollected + 1

instance (s t : State) : Decidable (Pickup s t) := by
  unfold Pickup; infer_instance

/-- The time check at the top of `tick(step)` fires. -/
def TimeExpired (s : State) (step : ℚ) : Prop :=
  (advanceClock s step).mode = Mode.time ∧
    (advanceClock s step).elapsedTime ≥ (advanceClock s step).timeLimit

instance (s : State) (step : ℚ) : Decidable (TimeExpired s step) := by
  unfold TimeExpired; infer_instance

/-- The state in which `tick(step)` moves the snake: clock advanced, direction dequeued. -/
def preMove (s : State) (step : ℚ) : State :=
  shiftDirection (advanceClock s step)

/-- The direction a tick moves in: the front of the queue, or `direction` when the queue is
empty. -/
def activeDirection (s : State) : Cell := (shiftDirection s).direction

/-- The candidate head of a tick after the boundary step: `snake[0]` plus the active
direction, wrapped when wrap is enabled. -/
def boundaryHead (s : State) : Option Cell :=
  (rawHead (shiftDirection s)).map fun head =>
    if s.wrap then wrapCell s.gridSize head else head

/-- The head a tick computes: `snake[0]` plus the active direction, after the wrap and the
portal adjustment. -/
def computedHead (s : State) : Option Cell :=
  (boundaryHead s).map (teleport s.portals)

/-- The four unit vectors `handleKey` and `handleSwipe` pass to `handleDirection`. -/
def UnitDir (d : Cell) : Prop :=
  d = { x := 1, y := 0 } ∨ d = { x := -1, y := 0 } ∨ d = { x := 0, y := 1 } ∨
    d = { x := 0, y := -1 }

/-- Cell `c` lies on the grid: `0 ≤ x, y < gridSize`. -/
def InGrid (gridSize : Nat) (c : Cell) : Prop :=
  0 ≤ c.x ∧ c.x < (gridSize : Int) ∧ 0 ≤ c.y ∧ c.y < (gridSize : Int)

instance (d : Cell) : Decidable (UnitDir d) := by
  unfold UnitDir; infer_instance

instance (gridSize : Nat) (c : Cell) : Decidable (InGrid gridSize c) := by
  unfold InGrid; infer_instance

/-- Cell `a` is the cell `b` moved by one unit step, coordinates read modulo `gridSize`. -/
def StepFrom (gridSize : Nat) (a b : Cell) : Prop :=
  ∃ d : Cell, UnitDir d ∧ (a.x - (b.x + d.x)) % (gridSize : Int) = 0 ∧
    (a.y - (b.y + d.y)) % (gridSize : Int) = 0

/-- What `generateObstacles` guarantees of its list `blocks`: at most `target` cells,
pairwise distinct, each on the grid, off the snake and outside the start zone. -/
def GoodBlocks (gridSize : Nat) (snake blocks : List Cell) : Prop :=
  blocks.length ≤ obstacleTarget gridSize ∧ blocks.Nodup ∧
    ∀ c ∈ blocks, InGrid gridSize c ∧ c ∉ snake ∧ isNearStart gridSize c = false

/-- What reaches the engine during a session: a direction request or a logic tick. -/
inductive Event where
  | turn (x y : Int)
  | tick (step now : ℚ)

/-- One event applied to the state. -/
def applyEvent (rnd : Rng) (s : State) : Event → Option State
  | Event.turn x y => some (handleDirection s x y)
  | Event.tick step now => tick rnd s step now

/-- A sequence of events applied in order; `none` as soon as a tick is undefined. -/
def run (rnd : Rng) (s : State) : List Event → Option State
  | [] => some s
  | e :: rest => (applyEvent rnd s e).bind fun t => run rnd t rest

/-- The state after a sequence of events, for sequences on which `run` is defined. -/
def runD (rnd : Rng) (s : State) (evs : List Event) : State := (run rnd s evs).getD s

/-- States reached from `resetState` (or from `startGame` called on a stopped engine) by
`handleDirection` calls and ticks. Ticks are allowed in every state, also after the session
has ended, so the set contains every state of a live session. -/
inductive Reachable (rnd : Rng) : State → Prop where
  | reset (s0 : State) : Reachable rnd (resetState rnd s0)
  | start (s0 : State) (now : ℚ) (h : s0.running = false) : Reachable rnd (startGame rnd s0 now)
  | turn (s : State) (x y : Int) (h : Reachable rnd s) : Reachable rnd (handleDirection s x y)
  | tick (s t : State) (step now : ℚ) (h : Reachable rnd s)
      (ht : tick rnd s step now = some t) : Reachable rnd t

/-! ## Concrete sessions used by the worked examples -/

/-- The value of `defaultCache.stats`. -/
def defaultStats : Stats :=
  { gamesPlayed := 0, totalFood := 0, totalTime := 0, maxLength := 0,
    bestByMode := { classic := 0, rush := 0, labyrinth := 0, portals := 0, time := 0 } }

/-- The module variables as first assigned when the script loads, with the default speed 7
and the given mode, grid size and wrap setting. -/
def pageLoad (mode : Mode) (gridSize : Nat) (wrap : Bool) : State :=
  { mode := mode, settingsSpeed := 7, wrap := wrap, stats := defaultStats,
    gridSize := gridSize, snake := [], direction := { x := 1, y := 0 }, directionQueue := [],
    food := { x := 0, y := 0 }, obstacles := [], portals := [], score := 0, combo := 1,
    lastFoodTimestamp := 0, foodCollected := 0, running := false, paused := false,
    elapsedTime := 0, timeLimit := 0, speed := 7, lastFrame := 0, accumulator := 0,
    overlaySubtitle := Subtitle.ready, drawn := 0 }

/-- The draw `0`. -/
def zeroDraw : UnitDraw := ⟨0, by norm_num⟩

/-- The random stream that starts with the given numerators over 16 and continues with 0. -/
def sixteenths (l : List (Fin 16)) : Rng := fun i =>
  match l.get? i with
  | some k => ⟨(k.val : ℚ) / 16, by
      constructor
      · positivity
      · rw [div_lt_one (by norm_num)]; exact_mod_cast k.isLt⟩
  | none => zeroDraw

/-- The random stream whose every value is `1 / 16`. -/
def constDraws : Rng := fun _ => ⟨1 / 16, by norm_num⟩

/-- A running classic session on the 18 grid, wrap off, whose snake has advanced to the
right edge: head `(17,9)`, facing right. -/
def atRightEdge : State :=
  { startGame constDraws (pageLoad Mode.classic 18 false) 0 with
    snake := [{ x := 17, y := 9 }, { x := 16, y := 9 }, { x := 15, y := 9 }] }

/-- Draws that put the portal pair of a fresh 18 grid at `(10,9)` and `(11,9)` and the first
food at `(0,0)`. -/
def portalDraws : Rng := sixteenths [9, 8, 10, 8]

/-- A portals session just started on the 18 grid, wrap off, with `portalDraws`. -/
def portalStart : State := startGame portalDraws (pageLoad Mode.portals 18 false) 0

/-- The events that bring the head of `portalStart` through the portal at `(10,9)` to
`(11,9)`, then up, left, and facing down onto `(10,9)` again. -/
def portalLoop : List Event :=
  [Event.tick (1 / 7) 100, Event.turn 0 (-1), Event.tick (1 / 7) 200, Event.turn (-1) 0,
    Event.tick (1 / 7) 300, Event.turn 0 1]

/-- A classic session just started on a grid of size 3 with wrap on. -/
def smallWrap : State := startGame constDraws (pageLoad Mode.classic 3 true) 0

/-- Draws that put the first three food cells of a fresh 18 grid at `(10,9)`, `(11,9)` and
`(12,9)`, straight ahead of the snake, and the fourth at `(0,0)`. -/
def foodDraws : Rng := sixteenths [9, 8, 10, 8, 11, 8]

/-- A classic session on the 18 grid started when the clock shows 10000 ms. -/
def lateStart : State := startGame foodDraws (pageLoad Mode.classic 18 false) 10000

/-- A rush session on the 18 grid with the default speed 7. -/
def rushStart : State := startGame foodDraws (pageLoad Mode.rush 18 false) 0

/-- Three ticks, each of which picks up one food cell in the sessions driven by
`foodDraws`. -/
def threeTicks : List Event :=
  [Event.tick (1 / 7) 1000, Event.tick (1 / 7) 2000, Event.tick (1 / 7) 3000]

/-- A labyrinth session just started on the 18 grid with the constant stream `constDraws`,
whose every drawn cell is `(1,1)`. -/
def labStart : State := startGame constDraws (pageLoad Mode.labyrinth 18 false) 0

/-- A classic session on the 18 grid, wrap off, default speed 7, started when the clock
shows 0 ms; its food is at `(1,1)`, away from the row of the snake. -/
def classicStart : State := startGame constDraws (pageLoad Mode.classic 18 false) 0

/-! ## Basic facts -/

theorem sameCell_iff (a b : Cell) : sameCell a b = true ↔ a = b := by
  cases a; cases b; simp [sameCell]

theorem any_sameCell_iff (l : List Cell) (c : Cell) :
    l.any (fun segment => sameCell segment c) = true ↔ c ∈ l := by
  simp only [List.any_eq_true, sameCell_iff]
  constructor
  · rintro ⟨x, hx, rfl⟩; exact hx
  · intro h; exact ⟨c, h, rfl⟩

@[simp] theorem endGame_snake (s : State) (r : Reason) : (endGame s r).snake = s.snake := rfl
@[simp] theorem endGame_score (s : State) (r : Reason) : (endGame s r).score = s.score := rfl
@[simp] theorem endGame_food (s : State) (r : Reason) : (endGame s r).food = s.food := rfl
@[simp] theorem endGame_gamesPlayed (s : State) (r : Reason) :
    (endGame s r).stats.gamesPlayed = s.stats.gamesPlayed + 1 := rfl
@[simp] theorem endGame_subtitle (s : State) (r : Reason) :
    (endGame s r).overlaySubtitle = Subtitle.ended r := rfl
@[simp] theorem endGame_running (s : State) (r : Reason) : (endGame s r).running = false := rfl

@[simp] theorem shiftDirection_snake (s : State) : (shiftDirection s).snake = s.snake := by
  unfold shiftDirection; split <;> rfl
@[simp] theorem shiftDirection_stats (s : State) : (shiftDirection s).stats = s.stats := by
  unfold shiftDirection; split <;> rfl
@[simp] theorem shiftDirection_score (s : State) : (shiftDirection s).score = s.score := by
  unfold shiftDirection; split <;> rfl
@[simp] theorem shiftDirection_food (s : State) : (shiftDirection s).food = s.food := by
  unfold shiftDirection; split <;> rfl
@[simp] theorem shiftDirection_wrap (s : State) : (shiftDirection s).wrap = s.wrap := by
  unfold shiftDirection; split <;> rfl
@[simp] theorem shiftDirection_gridSize (s : State) : (shiftDirection s).gridSize = s.gridSize := by
  unfold shiftDirection; split <;> rfl
@[simp] theorem shiftDirection_portals (s : State) : (shiftDirection s).portals = s.portals := by
  unfold shiftDirection; split <;> rfl
@[simp] theorem shiftDirection_obstacles (s : State) :
    (shiftDirection s).obstacles = s.obstacles := by
  unfold shiftDirection; split <;> rfl

@[simp] theorem eatFood_snake (rnd : Rng) (s : State) (now : ℚ) :
    (eatFood rnd s now).snake = s.snake := by
  unfold eatFood spawnFood; dsimp only; split_ifs <;> rfl
@[simp] theorem eatFood_stats (rnd : Rng) (s : State) (now : ℚ) :
    (eatFood rnd s now).stats = s.stats := by
  unfold eatFood spawnFood; dsimp only; split_ifs <;> rfl
theorem eatFood_combo (rnd : Rng) (s : State) (now : ℚ) :
    (eatFood rnd s now).combo =
      if now - s.lastFoodTimestamp < 2800 then min (s.combo + 1) 6 else 1 := by
  unfold eatFood spawnFood; dsimp only; split_ifs <;> rfl
theorem eatFood_score (rnd : Rng) (s : State) (now : ℚ) :
    (eatFood rnd s now).score = s.score + 10 * (eatFood rnd s now).combo := by
  unfold eatFood spawnFood; dsimp only; split_ifs <;> rfl

theorem eatFood_combo_pos (rnd : Rng) (s : State) (now : ℚ) :
    1 ≤ (eatFood rnd s now).combo := by
  rw [eatFood_combo]; split_ifs <;> omega

@[simp] theorem advanceClock_mode (s : State) (step : ℚ) :
    (advanceClock s step).mode = s.mode := rfl
@[simp] theorem advanceClock_settingsSpeed (s : State) (step : ℚ) :
    (advanceClock s step).settingsSpeed = s.settingsSpeed := rfl
@[simp] theorem advanceClock_wrap (s : State) (step : ℚ) :
    (advanceClock s step).wrap = s.wrap := rfl
@[simp] theorem advanceClock_stats (s : State) (step : ℚ) :
    (advanceClock s step).stats = s.stats := rfl
@[simp] theorem advanceClock_gridSize (s : State) (step : ℚ) :
    (advanceClock s step).gridSize = s.gridSize := rfl
@[simp] theorem advanceClock_snake (s : State) (step : ℚ) :
    (advanceClock s step).snake = s.snake := rfl
@[simp] theorem advanceClock_direction (s : State) (step : ℚ) :
    (advanceClock s step).direction = s.direction := rfl
@[simp] theorem advanceClock_directionQueue (s : State) (step : ℚ) :
    (advanceClock s step).directionQueue = s.directionQueue := rfl
@[simp] theorem advanceClock_food (s : State) (step : ℚ) :
    (advanceClock s step).food = s.food := rfl
@[simp] theorem advanceClock_obstacles (s : State) (step : ℚ) :
    (advanceClock s step).obstacles = s.obstacles := rfl
@[simp] theorem advanceClock_portals (s : State) (step : ℚ) :
    (advanceClock s step).portals = s.portals := rfl
@[simp] theorem advanceClock_score (s : State) (step : ℚ) :
    (advanceClock s step).score = s.score := rfl
@[simp] theorem advanceClock_combo (s : State) (step : ℚ) :
    (advanceClock s step).combo = s.combo := rfl
@[simp] theorem advanceClock_lastFoodTimestamp (s : State) (step : ℚ) :
    (advanceClock s step).lastFoodTimestamp = s.lastFoodTimestamp := rfl
@[simp] theorem advanceClock_foodCollected (s : State) (step : ℚ) :
    (advanceClock s step).foodCollected = s.foodCollected := rfl
@[simp] theorem advanceClock_speed (s : State) (step : ℚ) :
    (advanceClock s step).speed = s.speed := rfl
@[simp] theorem advanceClock_timeLimit (s : State) (step : ℚ) :
    (advanceClock s step).timeLimit = s.timeLimit := rfl
@[simp] theorem advanceClock_running (s : State) (step : ℚ) :
    (advanceClock s step).running = s.running := rfl

@[simp] theorem spawnFood_mode (rnd : Rng) (s : State) :
    (spawnFood rnd s).mode = s.mode := rfl
@[simp] theorem spawnFood_settingsSpeed (rnd : Rng) (s : State) :
    (spawnFood rnd s).settingsSpeed = s.settingsSpeed := rfl
@[simp] theorem spawnFood_wrap (rnd : Rng) (s : State) :
    (spawnFood rnd s).wrap = s.wrap := rfl
@[simp] theorem spawnFood_stats (rnd : Rng) (s : State) :
    (spawnFood rnd s).stats = s.stats := rfl
@[simp] theorem spawnFood_gridSize (rnd : Rng) (s : State) :
    (spawnFood rnd s).gridSize = s.gridSize := rfl
@[simp] theorem spawnFood_snake (rnd : Rng) (s : State) :
    (spawnFood rnd s).snake = s.snake := rfl
@[simp] theorem spawnFood_direction (rnd : Rng) (s : State) :
    (spawnFood rnd s).direction = s.direction := rfl
@[simp] theorem spawnFood_directionQueue (rnd : Rng) (s : State) :
    (spawnFood rnd s).directionQueue = s.directionQueue := rfl
@[simp] theorem spawnFood_obstacles (rnd : Rng) (s : State) :
    (spawnFood rnd s).obstacles = s.obstacles := rfl
@[simp] theorem spawnFood_portals (rnd : Rng) (s : State) :
    (spawnFood rnd s).portals = s.portals := rfl
@[simp] theorem spawnFood_score (rnd : Rng) (s : State) :
    (spawnFood rnd s).score = s.score := rfl
@[simp] theorem spawnFood_combo (rnd : Rng) (s : State) :
    (spawnFood rnd s).combo = s.combo := rfl
@[simp] theorem spawnFood_lastFoodTimestamp (rnd : Rng) (s : State) :
    (spawnFood rnd s).lastFoodTimestamp = s.lastFoodTimestamp := rfl
@[simp] theorem spawnFood_foodCollected (rnd : Rng) (s : State) :
    (spawnFood rnd s).foodCollected = s.foodCollected := rfl
@[simp] theorem spawnFood_speed (rnd : Rng) (s : State) :
    (spawnFood rnd s).speed = s.speed := rfl
@[simp] theorem spawnFood_timeLimit (rnd : Rng) (s : State) :
    (spawnFood rnd s).timeLimit = s.timeLimit := rfl
@[simp] theorem eatFood_mode (rnd : Rng) (s : State) (now : ℚ) :
    (eatFood rnd s now).mode = s.mode := by
  unfold eatFood spawnFood; dsimp only; split_ifs <;> rfl
@[simp] theorem eatFood_settingsSpeed (rnd : Rng) (s : State) (now : ℚ) :
    (eatFood rnd s now).settingsSpeed = s.settingsSpeed := by
  unfold eatFood spawnFood; dsimp only; split_ifs <;> rfl
@[simp] theorem eatFood_wrap (rnd : Rng) (s : State) (now : ℚ) :
    (eatFood rnd s now).wrap = s.wrap := by
  unfold eatFood spawnFood; dsimp only; split_ifs <;> rfl
@[simp] theorem eatFood_gridSize (rnd : Rng) (s : State) (now : ℚ) :
    (eatFood rnd s now).gridSize = s.gridSize := by
  unfold eatFood spawnFood; dsimp only; split_ifs <;> rfl
@[simp] theorem eatFood_portals (rnd : Rng) (s : State) (now : ℚ) :
    (eatFood rnd s now).portals = s.portals := by
  unfold eatFood spawnFood; dsimp only; split_ifs <;> rfl
@[simp] theorem eatFood_direction (rnd : Rng) (s : State) (now : ℚ) :
    (eatFood rnd s now).direction = s.direction := by
  unfold eatFood spawnFood; dsimp only; split_ifs <;> rfl
@[simp] theorem eatFood_directionQueue (rnd : Rng) (s : State) (now : ℚ) :
    (eatFood rnd s now).directionQueue = s.directionQueue := by
  unfold eatFood spawnFood; dsimp only; split_ifs <;> rfl
@[simp] theorem eatFood_timeLimit (rnd : Rng) (s : State) (now : ℚ) :
    (eatFood rnd s now).timeLimit = s.timeLimit := by
  unfold eatFood spawnFood; dsimp only; split_ifs <;> rfl
@[simp] theorem endGame_mode (s : State) (r : Reason) : (endGame s r).mode = s.mode := rfl
@[simp] theorem endGame_settingsSpeed (s : State) (r : Reason) : (endGame s r).settingsSpeed = s.settingsSpeed := rfl
@[simp] theorem endGame_wrap (s : State) (r : Reason) : (endGame s r).wrap = s.wrap := rfl
@[simp] theorem endGame_gridSize (s : State) (r : Reason) : (endGame s r).gridSize = s.gridSize := rfl
@[simp] theorem endGame_portals (s : State) (r : Reason) : (endGame s r).portals = s.portals := rfl
@[simp] theorem endGame_direction (s : State) (r : Reason) : (endGame s r).direction = s.direction := rfl
@[simp] theorem endGame_directionQueue (s : State) (r : Reason) : (endGame s r).directionQueue = s.directionQueue := rfl
@[simp] theorem endGame_timeLimit (s : State) (r : Reason) : (endGame s r).timeLimit = s.timeLimit := rfl
@[simp] theorem endGame_obstacles (s : State) (r : Reason) : (endGame s r).obstacles = s.obstacles := rfl
@[simp] theorem endGame_combo (s : State) (r : Reason) : (endGame s r).combo = s.combo := rfl
@[simp] theorem endGame_lastFoodTimestamp (s : State) (r : Reason) : (endGame s r).lastFoodTimestamp = s.lastFoodTimestamp := rfl
@[simp] theorem endGame_foodCollected (s : State) (r : Reason) : (endGame s r).foodCollected = s.foodCollected := rfl
@[simp] theorem endGame_speed (s : State) (r : Reason) : (endGame s r).speed = s.speed := rfl
@[simp] theorem moveTo_mode (rnd : Rng) (s : State) (head : Cell) (now : ℚ) :
    (moveTo rnd s head now).mode = s.mode := by
  unfold moveTo; split_ifs <;> simp
@[simp] theorem moveTo_settingsSpeed (rnd : Rng) (s : State) (head : Cell) (now : ℚ) :
    (moveTo rnd s head now).settingsSpeed = s.settingsSpeed := by
  unfold moveTo; split_ifs <;> simp
@[simp] theorem moveTo_wrap (rnd : Rng) (s : State) (head : Cell) (now : ℚ) :
    (moveTo rnd s head now).wrap = s.wrap := by
  unfold moveTo; split_ifs <;> simp
@[simp] theorem moveTo_gridSize (rnd : Rng) (s : State) (head : Cell) (now : ℚ) :
    (moveTo rnd s head now).gridSize = s.gridSize := by
  unfold moveTo; split_ifs <;> simp
@[simp] theorem moveTo_portals (rnd : Rng) (s : State) (head : Cell) (now : ℚ) :
    (moveTo rnd s head now).portals = s.portals := by
  unfold moveTo; split_ifs <;> simp
@[simp] theorem moveTo_direction (rnd : Rng) (s : State) (head : Cell) (now : ℚ) :
    (moveTo rnd s head now).direction = s.direction := by
  unfold moveTo; split_ifs <;> simp
@[simp] theorem moveTo_directionQueue (rnd : Rng) (s : State) (head : Cell) (now : ℚ) :
    (moveTo rnd s head now).directionQueue = s.directionQueue := by
  unfold moveTo; split_ifs <;> simp
@[simp] theorem moveTo_timeLimit (rnd : Rng) (s : State) (head : Cell) (now : ℚ) :
    (moveTo rnd s head now).timeLimit = s.timeLimit := by
  unfold moveTo; split_ifs <;> simp
@[simp] theorem shiftDirection_mode (s : State) : (shiftDirection s).mode = s.mode := by
  unfold shiftDirection; split <;> rfl
@[simp] theorem shiftDirection_settingsSpeed (s : State) : (shiftDirection s).settingsSpeed = s.settingsSpeed := by
  unfold shiftDirection; split <;> rfl
@[simp] theorem shiftDirection_combo (s : State) : (shiftDirection s).combo = s.combo := by
  unfold shiftDirection; split <;> rfl
@[simp] theorem shiftDirection_lastFoodTimestamp (s : State) : (shiftDirection s).lastFoodTimestamp = s.lastFoodTimestamp := by
  unfold shiftDirection; split <;> rfl
@[simp] theorem shiftDirection_foodCollected (s : State) : (shiftDirection s).foodCollected = s.foodCollected := by
  unfold shiftDirection; split <;> rfl
@[simp] theorem shiftDirection_speed (s : State) : (shiftDirection s).speed = s.speed := by
  unfold shiftDirection; split <;> rfl
@[simp] theorem shiftDirection_timeLimit (s : State) : (shiftDirection s).timeLimit = s.timeLimit := by
  unfold shiftDirection; split <;> rfl
@[simp] theorem preMove_mode (s : State) (step : ℚ) : (preMove s step).mode = s.mode := by
  simp [preMove, advanceClock]
@[simp] theorem preMove_settingsSpeed (s : State) (step : ℚ) : (preMove s step).settingsSpeed = s.settingsSpeed := by
  simp [preMove, advanceClock]
@[simp] theorem preMove_wrap (s : State) (step : ℚ) : (preMove s step).wrap = s.wrap := by
  simp [preMove, advanceClock]
@[simp] theorem preMove_gridSize (s : State) (step : ℚ) : (preMove s step).gridSize = s.gridSize := by
  simp [preMove, advanceClock]
@[simp] theorem preMove_portals (s : State) (step : ℚ) : (preMove s step).portals = s.portals := by
  simp [preMove, advanceClock]
@[simp] theorem preMove_combo (s : State) (step : ℚ) : (preMove s step).combo = s.combo := by
  simp [preMove, advanceClock]
@[simp] theorem preMove_lastFoodTimestamp (s : State) (step : ℚ) : (preMove s step).lastFoodTimestamp = s.lastFoodTimestamp := by
  simp [preMove, advanceClock]
@[simp] theorem preMove_foodCollected (s : State) (step : ℚ) : (preMove s step).foodCollected = s.foodCollected := by
  simp [preMove, advanceClock]
@[simp] theorem preMove_speed (s : State) (step : ℚ) : (preMove s step).speed = s.speed := by
  simp [preMove, advanceClock]
@[simp] theorem preMove_timeLimit (s : State) (step : ℚ) : (preMove s step).timeLimit = s.timeLimit := by
  simp [preMove, advanceClock]
@[simp] theorem handleDirection_mode (s : State) (x y : Int) :
    (handleDirection s x y).mode = s.mode := by
  unfold handleDirection; dsimp only; split_ifs <;> rfl
@[simp] theorem handleDirection_settingsSpeed (s : State) (x y : Int) :
    (handleDirection s x y).settingsSpeed = s.settingsSpeed := by
  unfold handleDirection; dsimp only; split_ifs <;> rfl
@[simp] theorem handleDirection_wrap (s : State) (x y : Int) :
    (handleDirection s x y).wrap = s.wrap := by
  unfold handleDirection; dsimp only; split_ifs <;> rfl
@[simp] theorem handleDirection_stats (s : State) (x y : Int) :
    (handleDirection s x y).stats = s.stats := by
  unfold handleDirection; dsimp only; split_ifs <;> rfl
@[simp] theorem handleDirection_gridSize (s : State) (x y : Int) :
    (handleDirection s x y).gridSize = s.gridSize := by
  unfold handleDirection; dsimp only; split_ifs <;> rfl
@[simp] theorem handleDirection_snake (s : State) (x y : Int) :
    (handleDirection s x y).snake = s.snake := by
  unfold handleDirection; dsimp only; split_ifs <;> rfl
@[simp] theorem handleDirection_direction (s : State) (x y : Int) :
    (handleDirection s x y).direction = s.direction := by
  unfold handleDirection; dsimp only; split_ifs <;> rfl
@[simp] theorem handleDirection_food (s : State) (x y : Int) :
    (handleDirection s x y).food = s.food := by
  unfold handleDirection; dsimp only; split_ifs <;> rfl
@[simp] theorem handleDirection_obstacles (s : State) (x y : Int) :
    (handleDirection s x y).obstacles = s.obstacles := by
  unfold handleDirection; dsimp only; split_ifs <;> rfl
@[simp] theorem handleDirection_portals (s : State) (x y : Int) :
    (handleDirection s x y).portals = s.portals := by
  unfold handleDirection; dsimp only; split_ifs <;> rfl
@[simp] theorem handleDirection_score (s : State) (x y : Int) :
    (handleDirection s x y).score = s.score := by
  unfold handleDirection; dsimp only; split_ifs <;> rfl
@[simp] theorem handleDirection_combo (s : State) (x y : Int) :
    (handleDirection s x y).combo = s.combo := by
  unfold handleDirection; dsimp only; split_ifs <;> rfl
@[simp] theorem handleDirection_lastFoodTimestamp (s : State) (x y : Int) :
    (handleDirection s x y).lastFoodTimestamp = s.lastFoodTimestamp := by
  unfold handleDirection; dsimp only; split_ifs <;> rfl
@[simp] theorem handleDirection_foodCollected (s : State) (x y : Int) :
    (handleDirection s x y).foodCollected = s.foodCollected := by
  unfold handleDirection; dsimp only; split_ifs <;> rfl
@[simp] theorem handleDirection_speed (s : State) (x y : Int) :
    (handleDirection s x y).speed = s.speed := by
  unfold handleDirection; dsimp only; split_ifs <;> rfl
@[simp] theorem handleDirection_timeLimit (s : State) (x y : Int) :
    (handleDirection s x y).timeLimit = s.timeLimit := by
  unfold handleDirection; dsimp only; split_ifs <;> rfl
@[simp] theorem handleDirection_running (s : State) (x y : Int) :
    (handleDirection s x y).running = s.running := by
  unfold handleDirection; dsimp only; split_ifs <;> rfl
@[simp] theorem resetState_mode (rnd : Rng) (s : State) :
    (resetState rnd s).mode = s.mode := by
  unfold resetState spawnFood; dsimp only; split_ifs <;> rfl
@[simp] theorem resetState_settingsSpeed (rnd : Rng) (s : State) :
    (resetState rnd s).settingsSpeed = s.settingsSpeed := by
  unfold resetState spawnFood; dsimp only; split_ifs <;> rfl
@[simp] theorem resetState_wrap (rnd : Rng) (s : State) :
    (resetState rnd s).wrap = s.wrap := by
  unfold resetState spawnFood; dsimp only; split_ifs <;> rfl
@[simp] theorem resetState_gridSize (rnd : Rng) (s : State) :
    (resetState rnd s).gridSize = s.gridSize := by
  unfold resetState spawnFood; dsimp only; split_ifs <;> rfl
@[simp] theorem resetState_stats (rnd : Rng) (s : State) :
    (resetState rnd s).stats = s.stats := by
  unfold resetState spawnFood; dsimp only; split_ifs <;> rfl
@[simp] theorem resetState_directionQueue (rnd : Rng) (s : State) :
    (resetState rnd s).directionQueue = [] := by
  unfold resetState spawnFood; dsimp only; split_ifs <;> rfl
@[simp] theorem resetState_direction (rnd : Rng) (s : State) :
    (resetState rnd s).direction = { x := 1, y := 0 } := by
  unfold resetState spawnFood; dsimp only; split_ifs <;> rfl
@[simp] theorem resetState_score (rnd : Rng) (s : State) :
    (resetState rnd s).score = 0 := by
  unfold resetState spawnFood; dsimp only; split_ifs <;> rfl
@[simp] theorem resetState_combo (rnd : Rng) (s : State) :
    (resetState rnd s).combo = 1 := by
  unfold resetState spawnFood; dsimp only; split_ifs <;> rfl
@[simp] theorem resetState_lastFoodTimestamp (rnd : Rng) (s : State) :
    (resetState rnd s).lastFoodTimestamp = 0 := by
  unfold resetState spawnFood; dsimp only; split_ifs <;> rfl
@[simp] theorem resetState_foodCollected (rnd : Rng) (s : State) :
    (resetState rnd s).foodCollected = 0 := by
  unfold resetState spawnFood; dsimp only; split_ifs <;> rfl
@[simp] theorem resetState_speed (rnd : Rng) (s : State) :
    (resetState rnd s).speed = s.settingsSpeed := by
  unfold resetState spawnFood; dsimp only; split_ifs <;> rfl
@[simp] theorem resetState_running (rnd : Rng) (s : State) :
    (resetState rnd s).running = false := by
  unfold resetState spawnFood; dsimp only; split_ifs <;> rfl

/-- The four outcomes of the part of `tick` after the portal block. -/
theorem moveTo_cases (rnd : Rng) (s : State) (head : Cell) (now : ℚ) :
    (head ∈ s.snake ∧ moveTo rnd s head now = endGame s Reason.selfCollision) ∨
    (head ∉ s.snake ∧ head ∈ s.obstacles ∧ moveTo rnd s head now = endGame s Reason.obstacle) ∨
    (head ∉ s.snake ∧ head ∉ s.obstacles ∧ head = s.food ∧
      moveTo rnd s head now = eatFood rnd { s with snake := head :: s.snake } now) ∨
    (head ∉ s.snake ∧ head ∉ s.obstacles ∧ head ≠ s.food ∧
      moveTo rnd s head now = { s with snake := (head :: s.snake).dropLast }) := by
  unfold moveTo
  by_cases h1 : head ∈ s.snake
  · left; exact ⟨h1, by rw [if_pos ((any_sameCell_iff _ _).2 h1)]⟩
  · right
    have h1' : ¬ (s.snake.any (fun segment => sameCell segment head) = true) :=
      fun h => h1 ((any_sameCell_iff _ _).1 h)
    rw [if_neg h1']
    by_cases h2 : head ∈ s.obstacles
    · left; exact ⟨h1, h2, by rw [if_pos ((any_sameCell_iff _ _).2 h2)]⟩
    · right
      have h2' : ¬ (s.obstacles.any (fun block => sameCell block head) = true) :=
        fun h => h2 ((any_sameCell_iff _ _).1 h)
      rw [if_neg h2']
      by_cases h3 : head = s.food
      · left; exact ⟨h1, h2, h3, by rw [if_pos ((sameCell_iff _ _).2 h3)]⟩
      · right
        have h3' : ¬ (sameCell head s.food = true) := fun h => h3 ((sameCell_iff _ _).1 h)
        exact ⟨h1, h2, h3, by rw [if_neg h3']⟩

theorem rawHead_isSome (s : State) (h : s.snake ≠ []) : ∃ c, rawHead s = some c := by
  unfold rawHead
  cases hs : s.snake with
  | nil => exact absurd hs h
  | cons a l => exact ⟨_, rfl⟩

/-- What `moveTo` does to the snake and the score. -/
theorem moveTo_snake (rnd : Rng) (s : State) (head : Cell) (now : ℚ) (hne : s.snake ≠ []) :
    (Ended s (moveTo rnd s head now) → (moveTo rnd s head now).snake = s.snake) ∧
    (¬ Ended s (moveTo rnd s head now) →
      (head = s.food → (moveTo rnd s head now).snake = head :: s.snake ∧
        s.score < (moveTo rnd s head now).score) ∧
      (head ≠ s.food → (moveTo rnd s head now).snake = head :: s.snake.dropLast ∧
        (moveTo rnd s head now).score = s.score)) := by
  rcases moveTo_cases rnd s head now with ⟨_, h⟩ | ⟨_, _, h⟩ | ⟨_, _, hf, h⟩ | ⟨_, _, hf, h⟩
  · rw [h]; exact ⟨fun _ => rfl, fun hn => absurd (endGame_gamesPlayed _ _) hn⟩
  · rw [h]; exact ⟨fun _ => rfl, fun hn => absurd (endGame_gamesPlayed _ _) hn⟩
  · rw [h]
    refine ⟨fun he => ?_, fun _ => ⟨fun _ => ⟨by simp, ?_⟩, fun hn => absurd hf hn⟩⟩
    · unfold Ended at he; simp at he
    · rw [eatFood_score]
      have := eatFood_combo_pos rnd { s with snake := head :: s.snake } now
      show s.score < s.score + _
      omega
  · rw [h]
    refine ⟨fun he => ?_, fun _ => ⟨fun hn => absurd hn hf, fun _ => ⟨?_, rfl⟩⟩⟩
    · unfold Ended at he; simp at he
    · show (head :: s.snake).dropLast = _
      cases hs : s.snake with
      | nil => exact absurd hs hne
      | cons a l => rfl

@[simp] theorem preMove_snake (s : State) (step : ℚ) : (preMove s step).snake = s.snake := by
  simp [preMove, advanceClock]
@[simp] theorem preMove_stats (s : State) (step : ℚ) : (preMove s step).stats = s.stats := by
  simp [preMove, advanceClock]
@[simp] theorem preMove_score (s : State) (step : ℚ) : (preMove s step).score = s.score := by
  simp [preMove, advanceClock]
@[simp] theorem preMove_food (s : State) (step : ℚ) : (preMove s step).food = s.food := by
  simp [preMove, advanceClock]
@[simp] theorem preMove_obstacles (s : State) (step : ℚ) :
    (preMove s step).obstacles = s.obstacles := by
  simp [preMove, advanceClock]

theorem rawHead_preMove (s : State) (step : ℚ) :
    rawHead (preMove s step) = rawHead (shiftDirection s) := by
  unfold preMove shiftDirection rawHead advanceClock
  cases s.directionQueue <;> rfl

/-- The control flow of `tick` once `snake[0]` exists and the wrap arithmetic is defined. -/
theorem tick_eq (rnd : Rng) (s : State) (step now : ℚ) (c : Cell)
    (hc : rawHead (shiftDirection s) = some c) (hgrid : s.wrap = true → s.gridSize ≠ 0) :
    tick rnd s step now = some (
      if TimeExpired s step then endGame (advanceClock s step) Reason.timeExpired
      else if s.wrap = true then
        moveTo rnd (preMove s step) (teleport s.portals (wrapCell s.gridSize c)) now
      else if outOfBounds s.gridSize c = true then endGame (preMove s step) Reason.wall
      else moveTo rnd (preMove s step) (teleport s.portals c) now) := by
  have hc1 := (rawHead_preMove s step).trans hc
  unfold preMove at hc1
  unfold tick
  by_cases ht : TimeExpired s step
  · have ht1 := ht
    unfold TimeExpired at ht1
    simp only [ht1, and_self, if_true, ht]
  · have ht1 := ht
    unfold TimeExpired at ht1
    simp only [ht1, if_false, hc1, ht]
    by_cases hw : s.wrap = true
    · have hg := hgrid hw
      simp [hw, hg, preMove]
    · simp only [Bool.not_eq_true] at hw
      by_cases ho : outOfBounds s.gridSize c = true
      · simp [hw, preMove, ho]
      · simp [hw, preMove, ho]

theorem preMove_directionQueue_length (s : State) (step : ℚ) :
    (preMove s step).directionQueue.length ≤ s.directionQueue.length := by
  unfold preMove shiftDirection advanceClock
  cases h : s.directionQueue with
  | nil => simp
  | cons d rest => simp

/-- The exits of a defined tick: time expiry, wall, or the move to the computed head. -/
theorem tick_some_cases (rnd : Rng) (s t : State) (step now : ℚ)
    (h : tick rnd s step now = some t) :
    (TimeExpired s step ∧ t = endGame (advanceClock s step) Reason.timeExpired) ∨
    (¬ TimeExpired s step ∧ s.wrap = false ∧ t = endGame (preMove s step) Reason.wall) ∨
    (¬ TimeExpired s step ∧ ∃ head, computedHead s = some head ∧
      t = moveTo rnd (preMove s step) head now) := by
  have hnone : ∀ c, rawHead (shiftDirection s) = c → (c = none ∨ (s.wrap = true ∧ s.gridSize = 0)) →
      TimeExpired s step ∧ t = endGame (advanceClock s step) Reason.timeExpired := by
    intro c hc hbad
    have hc1 := (rawHead_preMove s step).trans hc
    unfold preMove at hc1
    unfold tick at h
    by_cases ht : TimeExpired s step
    · have ht1 := ht
      unfold TimeExpired at ht1
      simp only [ht1, and_self, if_true, Option.some.injEq] at h
      exact ⟨ht, h.symm⟩
    · have ht1 := ht
      unfold TimeExpired at ht1
      simp only [ht1, if_false, hc1] at h
      rcases hbad with rfl | ⟨hw, hg⟩
      · exact absurd h (by simp)
      · cases c with
        | none => exact absurd h (by simp)
        | some c =>
          simp [hw, hg] at h
  cases hc : rawHead (shiftDirection s) with
  | none => exact Or.inl (hnone _ hc (Or.inl rfl))
  | some c =>
    by_cases hg : s.wrap = true → s.gridSize ≠ 0
    · rw [tick_eq rnd s step now c hc hg] at h
      have h := (Option.some.inj h).symm
      by_cases ht : TimeExpired s step
      · left; rw [if_pos ht] at h; exact ⟨ht, h⟩
      · right
        rw [if_neg ht] at h
        by_cases hw : s.wrap = true
        · right
          rw [if_pos hw] at h
          exact ⟨ht, _, by simp [computedHead, boundaryHead, hc, hw], h⟩
        · rw [if_neg hw] at h
          simp only [Bool.not_eq_true] at hw
          by_cases ho : outOfBounds s.gridSize c = true
          · left; rw [if_pos ho] at h; exact ⟨ht, hw, h⟩
          · right; rw [if_neg ho] at h
            exact ⟨ht, _, by simp [computedHead, boundaryHead, hc, hw], h⟩
    · push_neg at hg
      exact Or.inl (hnone _ hc (Or.inr hg))

theorem tick_directionQueue_length (rnd : Rng) (s t : State) (step now : ℚ)
    (h : tick rnd s step now = some t) :
    t.directionQueue.length ≤ s.directionQueue.length := by
  rcases tick_some_cases rnd s t step now h with ⟨_, rfl⟩ | ⟨_, _, rfl⟩ | ⟨_, head, _, rfl⟩
  · exact le_refl _
  · simpa using preMove_directionQueue_length s step
  · simpa using preMove_directionQueue_length s step

theorem startGame_eq (rnd : Rng) (s : State) (now : ℚ) (h : s.running = false) :
    startGame rnd s now
      = { resetState rnd s with running := true, paused := false, lastFrame := now } := by
  unfold startGame; simp [h]

theorem reachable_queue (rnd : Rng) (s : State) (h : Reachable rnd s) :
    s.directionQueue.length ≤ 2 := by
  induction h with
  | reset s0 => simp
  | start s0 now h0 => rw [startGame_eq rnd s0 now h0]; simp
  | turn s x y _ ih =>
    unfold handleDirection; dsimp only; split_ifs
    · exact ih
    · exact ih
    · simp only [List.length_append, List.length_singleton]; omega
    · exact ih
  | tick s t step now _ ht ih =>
    exact le_trans (tick_directionQueue_length rnd s t step now ht) ih

theorem not_ended_of_stats (s0 t : State) (h : t.stats = s0.stats) : ¬ Ended s0 t := by
  unfold Ended; rw [h]; omega

/-- When the part of `tick` after the portal block ends the session. -/
theorem moveTo_ended_iff (rnd : Rng) (s0 s1 : State) (head : Cell) (now : ℚ)
    (hst : s1.stats = s0.stats) :
    Ended s0 (moveTo rnd s1 head now) ↔ head ∈ s1.snake ∨ head ∈ s1.obstacles := by
  rcases moveTo_cases rnd s1 head now with ⟨h1, h⟩ | ⟨h1, h2, h⟩ | ⟨h1, h2, _, h⟩ | ⟨h1, h2, _, h⟩
  · rw [h]; simp [Ended, hst, h1]
  · rw [h]; simp [Ended, hst, h2]
  · rw [h]
    constructor
    · intro he; exact absurd he (not_ended_of_stats _ _ (by simp [hst]))
    · rintro (h | h); exact absurd h h1; exact absurd h h2
  · rw [h]
    constructor
    · intro he; exact absurd he (not_ended_of_stats _ _ hst)
    · rintro (h | h); exact absurd h h1; exact absurd h h2

/-- With which reason the part of `tick` after the portal block ends the session. -/
theorem moveTo_endedWith_iff (rnd : Rng) (s0 s1 : State) (head : Cell) (now : ℚ)
    (hst : s1.stats = s0.stats) (r : Reason) :
    EndedWith s0 (moveTo rnd s1 head now) r ↔
      (r = Reason.selfCollision ∧ head ∈ s1.snake) ∨
      (r = Reason.obstacle ∧ head ∉ s1.snake ∧ head ∈ s1.obstacles) := by
  rcases moveTo_cases rnd s1 head now with ⟨h1, h⟩ | ⟨h1, h2, h⟩ | ⟨h1, h2, _, h⟩ | ⟨h1, h2, _, h⟩
  · rw [h]
    constructor
    · rintro ⟨_, hsub, _⟩
      simp only [endGame_subtitle, Subtitle.ended.injEq] at hsub
      exact Or.inl ⟨hsub.symm, h1⟩
    · rintro (⟨rfl, _⟩ | ⟨_, hn, _⟩)
      · exact ⟨by simp [Ended, hst], rfl, rfl⟩
      · exact absurd h1 hn
  · rw [h]
    constructor
    · rintro ⟨_, hsub, _⟩
      simp only [endGame_subtitle, Subtitle.ended.injEq] at hsub
      exact Or.inr ⟨hsub.symm, h1, h2⟩
    · rintro (⟨_, hn⟩ | ⟨rfl, _, _⟩)
      · exact absurd hn h1
      · exact ⟨by simp [Ended, hst], rfl, rfl⟩
  · rw [h]
    constructor
    · rintro ⟨he, _⟩; exact absurd he (not_ended_of_stats _ _ (by simp [hst]))
    · rintro (⟨_, hn⟩ | ⟨_, _, hn⟩); exact absurd hn h1; exact absurd hn h2
  · rw [h]
    constructor
    · rintro ⟨he, _⟩; exact absurd he (not_ended_of_stats _ _ hst)
    · rintro (⟨_, hn⟩ | ⟨_, _, hn⟩); exact absurd hn h1; exact absurd hn h2

@[simp] theorem eatFood_lastFoodTimestamp (rnd : Rng) (s : State) (now : ℚ) :
    (eatFood rnd s now).lastFoodTimestamp = now := by
  unfold eatFood spawnFood; dsimp only; split_ifs <;> rfl
@[simp] theorem eatFood_foodCollected (rnd : Rng) (s : State) (now : ℚ) :
    (eatFood rnd s now).foodCollected = s.foodCollected + 1 := by
  unfold eatFood spawnFood; dsimp only; split_ifs <;> rfl
theorem eatFood_speed (rnd : Rng) (s : State) (now : ℚ) :
    (eatFood rnd s now).speed
      = if s.mode = Mode.rush then min (s.speed + 3 / 10) 18 else s.speed := by
  unfold eatFood spawnFood; dsimp only; split_ifs <;> rfl

/-- A defined tick either leaves the scoring variables alone or runs the food branch on the
state with the computed head, the food cell, in front of the snake. -/
theorem tick_pickup_cases (rnd : Rng) (s t : State) (step now : ℚ)
    (h : tick rnd s step now = some t) :
    (¬ Pickup s t ∧ (Ended s t ∨ computedHead s ≠ some s.food) ∧
      t.combo = s.combo ∧ t.score = s.score ∧
      t.lastFoodTimestamp = s.lastFoodTimestamp ∧ t.speed = s.speed ∧
      t.foodCollected = s.foodCollected) ∨
    (Pickup s t ∧ ¬ Ended s t ∧ computedHead s = some s.food ∧
      t = eatFood rnd { preMove s step with snake := s.food :: s.snake } now ∧
      t.combo = (if now - s.lastFoodTimestamp < 2800 then min (s.combo + 1) 6 else 1) ∧
      t.score = s.score + 10 * t.combo ∧ t.lastFoodTimestamp = now ∧
      t.speed = (if s.mode = Mode.rush then min (s.speed + 3 / 10) 18 else s.speed)) := by
  rcases tick_some_cases rnd s t step now h with ⟨_, rfl⟩ | ⟨_, _, rfl⟩ | ⟨_, head, hh, rfl⟩
  · left
    exact ⟨by simp [Pickup], Or.inl (by simp [Ended]), rfl, rfl, rfl, rfl, rfl⟩
  · left
    exact ⟨by simp [Pickup], Or.inl (by simp [Ended]), by simp, by simp, by simp, by simp,
      by simp⟩
  · rcases moveTo_cases rnd (preMove s step) head now with
      ⟨_, h⟩ | ⟨_, _, h⟩ | ⟨_, _, hf, h⟩ | ⟨_, _, hf, h⟩
    · left; rw [h]
      exact ⟨by simp [Pickup], Or.inl (by simp [Ended]), by simp, by simp, by simp, by simp,
        by simp⟩
    · left; rw [h]
      exact ⟨by simp [Pickup], Or.inl (by simp [Ended]), by simp, by simp, by simp, by simp,
        by simp⟩
    · right
      rw [preMove_food] at hf
      subst hf
      rw [h]
      refine ⟨by simp [Pickup], not_ended_of_stats _ _ (by simp), hh, by simp, ?_, ?_, by simp,
        ?_⟩
      · rw [eatFood_combo]; simp
      · rw [eatFood_score]; simp
      · rw [eatFood_speed]; simp
    · left; rw [h]
      rw [preMove_food] at hf
      refine ⟨by simp [Pickup], Or.inr ?_, by simp, by simp, by simp, by simp, by simp⟩
      rw [hh]; simpa using hf

/-! ## C1: what a tick does to the snake -/

/-- C1: a tick that ends the session leaves the snake unchanged; any other tick puts the
computed head (`snake[0]` plus the active direction, wrapped and teleported) in front of the
whole old snake when that head is the food cell (the score then increases) and in front of
the old snake without its last cell otherwise (the score is unchanged); so the length is the
old length or the old length plus one. The tick is defined whenever `snake[0]` exists and
the wrap arithmetic is defined. -/
theorem tick_snake (rnd : Rng) (s : State) (step now : ℚ)
    (hne : s.snake ≠ []) (hgrid : s.wrap = true → s.gridSize ≠ 0) :
    ∃ t head, tick rnd s step now = some t ∧ computedHead s = some head ∧
      (Ended s t → t.snake = s.snake) ∧
      (¬ Ended s t →
        (head = s.food → t.snake = head :: s.snake ∧ s.score < t.score) ∧
        (head ≠ s.food → t.snake = head :: s.snake.dropLast ∧ t.score = s.score)) ∧
      (t.snake.length = s.snake.length ∨ t.snake.length = s.snake.length + 1) := by
  obtain ⟨c, hc⟩ := rawHead_isSome (shiftDirection s) (by simpa using hne)
  have hhead : computedHead s =
      some (teleport s.portals (if s.wrap = true then wrapCell s.gridSize c else c)) := by
    simp [computedHead, boundaryHead, hc]
  have hne' : (preMove s step).snake ≠ [] := by simpa using hne
  have key : ∀ head, 
      (Ended s (moveTo rnd (preMove s step) head now) →
        (moveTo rnd (preMove s step) head now).snake = s.snake) ∧
      (¬ Ended s (moveTo rnd (preMove s step) head now) →
        (head = s.food → (moveTo rnd (preMove s step) head now).snake = head :: s.snake ∧
          s.score < (moveTo rnd (preMove s step) head now).score) ∧
        (head ≠ s.food → (moveTo rnd (preMove s step) head now).snake
            = head :: s.snake.dropLast ∧
          (moveTo rnd (preMove s step) head now).score = s.score)) := by
    intro head
    have := moveTo_snake rnd (preMove s step) head now hne'
    simpa [Ended] using this
  have fin : ∀ (t : State) (head : Cell),
      ((Ended s t → t.snake = s.snake) ∧
      (¬ Ended s t →
        (head = s.food → t.snake = head :: s.snake ∧ s.score < t.score) ∧
        (head ≠ s.food → t.snake = head :: s.snake.dropLast ∧ t.score = s.score))) →
      ((Ended s t → t.snake = s.snake) ∧
      (¬ Ended s t →
        (head = s.food → t.snake = head :: s.snake ∧ s.score < t.score) ∧
        (head ≠ s.food → t.snake = head :: s.snake.dropLast ∧ t.score = s.score)) ∧
      (t.snake.length = s.snake.length ∨ t.snake.length = s.snake.length + 1)) := by
    intro t head h
    refine ⟨h.1, h.2, ?_⟩
    by_cases he : Ended s t
    · left; rw [h.1 he]
    · by_cases hf : head = s.food
      · right; rw [((h.2 he).1 hf).1]; rfl
      · left; rw [((h.2 he).2 hf).1]
        have : s.snake.length ≠ 0 := fun h0 => hne (List.length_eq_zero.1 h0)
        simp only [List.length_cons, List.length_dropLast]
        omega
  refine ⟨_, _, tick_eq rnd s step now c hc hgrid, hhead, ?_⟩
  apply fin
  by_cases ht : TimeExpired s step
  · rw [if_pos ht]
    exact ⟨fun _ => rfl, fun hn => absurd (endGame_gamesPlayed _ _) hn⟩
  · rw [if_neg ht]
    by_cases hw : s.wrap = true
    · rw [if_pos hw, if_pos hw]; exact key _
    · rw [if_neg hw, if_neg hw]
      by_cases ho : outOfBounds s.gridSize c = true
      · rw [if_pos ho]
        refine ⟨fun _ => by simp, fun hn => absurd ?_ hn⟩
        simp [Ended]
      · rw [if_neg ho]; exact key _

/-- C1, worked example: grid 18, wrap off, classic mode, the snake `[(9,9),(8,9),(7,9)]` of
a fresh reset facing right with an empty queue and the food at `(1,1)`: one tick gives
`[(10,9),(9,9),(8,9)]` and score 0. -/
theorem tick_snake_witness :
    (resetState constDraws (pageLoad Mode.classic 18 false)).snake
        = [{ x := 9, y := 9 }, { x := 8, y := 9 }, { x := 7, y := 9 }] ∧
      (resetState constDraws (pageLoad Mode.classic 18 false)).food = { x := 1, y := 1 } ∧
      (∃ t head, tick constDraws (resetState constDraws (pageLoad Mode.classic 18 false))
            (1 / 7) 1000 = some t ∧
          computedHead (resetState constDraws (pageLoad Mode.classic 18 false)) = some head ∧
          head = { x := 10, y := 9 } ∧
          t.snake = [{ x := 10, y := 9 }, { x := 9, y := 9 }, { x := 8, y := 9 }] ∧
          t.score = 0) := by
  refine ⟨by decide!, by decide!, ?_⟩
  obtain ⟨t, head, ht, hh, _, _, _⟩ :=
    tick_snake constDraws (resetState constDraws (pageLoad Mode.classic 18 false)) (1 / 7) 1000
      (by decide!) (by decide!)
  refine ⟨t, head, ht, hh, ?_, ?_, ?_⟩
  · have h2 : computedHead (resetState constDraws (pageLoad Mode.classic 18 false))
        = some { x := 10, y := 9 } := by decide!
    rw [h2] at hh; exact (Option.some.inj hh).symm
  · have h3 : (tick constDraws (resetState constDraws (pageLoad Mode.classic 18 false))
        (1 / 7) 1000).map (fun u => u.snake)
          = some [{ x := 10, y := 9 }, { x := 9, y := 9 }, { x := 8, y := 9 }] := by decide!
    rw [ht] at h3; exact Option.some.inj h3
  · have h4 : (tick constDraws (resetState constDraws (pageLoad Mode.classic 18 false))
        (1 / 7) 1000).map (fun u => u.score) = some 0 := by decide!
    rw [ht] at h4; exact Option.some.inj h4

/-! ## C2: admission of direction requests -/

theorem handleDirection_eq (s : State) (x y : Int) :
    handleDirection s x y =
      if ({ x := x, y := y } : Cell) = { x := -(lastDirection s).x, y := -(lastDirection s).y } ∨
          ({ x := x, y := y } : Cell) = lastDirection s ∨ 2 ≤ s.directionQueue.length then s
      else { s with directionQueue := s.directionQueue ++ [{ x := x, y := y }] } := by
  unfold handleDirection
  dsimp only
  rcases lastDirection s with ⟨rx, ry⟩
  simp only [Cell.mk.injEq]
  by_cases h1 : x = -rx ∧ y = -ry
  · simp [h1]
  · by_cases h2 : x = rx ∧ y = ry
    · simp [h2]
    · by_cases h3 : s.directionQueue.length < 2
      · have : ¬ 2 ≤ s.directionQueue.length := by omega
        simp [h1, h2, h3, this]
      · have : 2 ≤ s.directionQueue.length := by omega
        simp [h1, h2, h3, this]

/-- The constant `last` of `handleDirection` is the last entry of the queue, or `direction`
when the queue is empty. -/
theorem lastDirection_eq (s : State) (ref : Cell)
    (href : (s.directionQueue = [] ∧ ref = s.direction) ∨
      ∃ front : List Cell, s.directionQueue = front ++ [ref]) :
    lastDirection s = ref := by
  unfold lastDirection
  rcases href with ⟨hq, hr⟩ | ⟨front, hq⟩
  · rw [hq, hr]; rfl
  · rw [hq, List.getLast?_concat]

/-- C2: `handleDirection(x, y)` compares the request with the reference `ref`: the last
queued entry (the queue is `front ++ [ref]`), or `direction` when the queue is empty. If
the request equals the reference, is its exact opposite, or the queue is full (2 entries or
more), the state is returned unchanged, queue and direction included; otherwise the request
is appended at the end of the queue and nothing else changes. A queue within its capacity
stays within it, so no reachable queue holds more than 2 entries; and with
`direction = (1,0)` and an empty queue the request `(-1,0)` is dropped. -/
theorem handleDirection_queue (rnd : Rng) (s : State) (x y : Int) (ref : Cell)
    (href : (s.directionQueue = [] ∧ ref = s.direction) ∨
      ∃ front : List Cell, s.directionQueue = front ++ [ref]) :
    ((({ x := x, y := y } : Cell) = ref ∨
        ({ x := x, y := y } : Cell) = { x := -ref.x, y := -ref.y } ∨
        2 ≤ s.directionQueue.length) → handleDirection s x y = s) ∧
    (¬ (({ x := x, y := y } : Cell) = ref ∨
        ({ x := x, y := y } : Cell) = { x := -ref.x, y := -ref.y } ∨
        2 ≤ s.directionQueue.length) →
      handleDirection s x y
        = { s with directionQueue := s.directionQueue ++ [{ x := x, y := y }] }) ∧
    (s.directionQueue.length ≤ 2 → (handleDirection s x y).directionQueue.length ≤ 2) ∧
    (s.direction = { x := 1, y := 0 } → s.directionQueue = [] →
      handleDirection s (-1) 0 = s) ∧
    (Reachable rnd s → s.directionQueue.length ≤ 2) := by
  have hl := lastDirection_eq s ref href
  refine ⟨?_, ?_, ?_, ?_, reachable_queue rnd s⟩
  · intro h
    rw [handleDirection_eq, hl, if_pos]
    tauto
  · intro h
    rw [handleDirection_eq, hl, if_neg]
    tauto
  · intro h
    rw [handleDirection_eq]
    split_ifs with hc
    · exact h
    · have : ¬ 2 ≤ s.directionQueue.length := fun h2 => hc (Or.inr (Or.inr h2))
      simp only [List.length_append, List.length_singleton]
      omega
  · intro hd hq
    rw [handleDirection_eq, if_pos]
    left
    simp [lastDirection, hq, hd]

/-- C2, worked example: in the session `classicStart`, moving right with an empty queue, the
request `(0,1)` is queued. With the queue `[(0,1)]` the reference is the queued `(0,1)`, not
the active direction `(1,0)`: the request `(0,-1)`, its opposite, is dropped and queue and
direction stay as they are, while the request `(-1,0)` is appended. -/
theorem handleDirection_queue_witness :
    (handleDirection classicStart 0 1).direction = { x := 1, y := 0 } ∧
      (handleDirection classicStart 0 1).directionQueue = [{ x := 0, y := 1 }] ∧
      handleDirection (handleDirection classicStart 0 1) 0 (-1)
        = handleDirection classicStart 0 1 ∧
      (handleDirection (handleDirection classicStart 0 1) (-1) 0).directionQueue
        = [{ x := 0, y := 1 }, { x := -1, y := 0 }] := by
  have h1 := (handleDirection_queue constDraws (handleDirection classicStart 0 1) 0 (-1)
    { x := 0, y := 1 } (Or.inr ⟨[], by decide!⟩)).1 (Or.inr (Or.inl (by decide)))
  have h2 := (handleDirection_queue constDraws (handleDirection classicStart 0 1) (-1) 0
    { x := 0, y := 1 } (Or.inr ⟨[], by decide!⟩)).2.1 (by decide!)
  refine ⟨by decide!, by decide!, h1, ?_⟩
  rw [h2]
  decide!

/-! ## C3: the boundary step -/

theorem outOfBounds_iff (g : Nat) (c : Cell) : outOfBounds g c = true ↔ ¬ InGrid g c := by
  unfold outOfBounds InGrid
  simp only [Bool.or_eq_true, decide_eq_true_eq]
  omega

theorem rawHead_cons (s : State) (h : Cell) (rest : List Cell) (hs : s.snake = h :: rest) :
    rawHead (shiftDirection s)
      = some { x := h.x + (activeDirection s).x, y := h.y + (activeDirection s).y } := by
  unfold rawHead activeDirection
  rw [shiftDirection_snake, hs]

theorem wrapCell_eq (g : Nat) (c : Cell) (hg : 1 ≤ g) (hx : -1 ≤ c.x) (hy : -1 ≤ c.y) :
    wrapCell g c = { x := c.x % (g : Int), y := c.y % (g : Int) } := by
  unfold wrapCell
  have hg' : (0 : Int) ≤ (g : Int) := Int.ofNat_nonneg g
  have hg1 : (1 : Int) ≤ (g : Int) := by exact_mod_cast hg
  rw [Int.tmod_eq_emod (by omega) hg', Int.tmod_eq_emod (by omega) hg']
  simp


/-- C3: for a grid of size at least 1, an in-grid head `snake[0]` and a unit active direction.
With wrap enabled a tick never ends with reason wall, and a tick that passes the time check
moves to the candidate head reduced modulo `gridSize`, which lies in the grid: leaving at
`x = gridSize - 1` rightwards re-enters at `x = 0` with `y` unchanged, and symmetrically on
the other three edges. With wrap disabled a tick that passes the time check ends with reason
wall exactly when the candidate head is off the grid, and then snake, score and food are
unchanged. -/
theorem tick_boundary (rnd : Rng) (s : State) (step now : ℚ) (h : Cell) (rest : List Cell)
    (hg : 1 ≤ s.gridSize) (hs : s.snake = h :: rest) (hin : InGrid s.gridSize h)
    (hd : UnitDir (activeDirection s)) :
    ∃ t, tick rnd s step now = some t ∧
      (s.wrap = true → ¬ EndedWith s t Reason.wall) ∧
      (¬ TimeExpired s step →
        (s.wrap = true →
          boundaryHead s = some { x := (h.x + (activeDirection s).x) % (s.gridSize : Int),
                                  y := (h.y + (activeDirection s).y) % (s.gridSize : Int) } ∧
          InGrid s.gridSize { x := (h.x + (activeDirection s).x) % (s.gridSize : Int),
                              y := (h.y + (activeDirection s).y) % (s.gridSize : Int) } ∧
          t = moveTo rnd (preMove s step) (teleport s.portals
                { x := (h.x + (activeDirection s).x) % (s.gridSize : Int),
                  y := (h.y + (activeDirection s).y) % (s.gridSize : Int) }) now ∧
          (h.x = (s.gridSize : Int) - 1 → activeDirection s = { x := 1, y := 0 } →
            boundaryHead s = some { x := 0, y := h.y }) ∧
          (h.x = 0 → activeDirection s = { x := -1, y := 0 } →
            boundaryHead s = some { x := (s.gridSize : Int) - 1, y := h.y }) ∧
          (h.y = (s.gridSize : Int) - 1 → activeDirection s = { x := 0, y := 1 } →
            boundaryHead s = some { x := h.x, y := 0 }) ∧
          (h.y = 0 → activeDirection s = { x := 0, y := -1 } →
            boundaryHead s = some { x := h.x, y := (s.gridSize : Int) - 1 })) ∧
        (s.wrap = false →
          (EndedWith s t Reason.wall ↔
            ¬ InGrid s.gridSize { x := h.x + (activeDirection s).x,
                                  y := h.y + (activeDirection s).y }) ∧
          (EndedWith s t Reason.wall →
            t.snake = s.snake ∧ t.score = s.score ∧ t.food = s.food))) := by
  have hraw := rawHead_cons s h rest hs
  have hgne : s.wrap = true → s.gridSize ≠ 0 := fun _ => by omega
  have hg1 : (1 : Int) ≤ (s.gridSize : Int) := by exact_mod_cast hg
  obtain ⟨hx0, hx1, hy0, hy1⟩ := hin
  have hdx : -1 ≤ (activeDirection s).x ∧ (activeDirection s).x ≤ 1 ∧
      -1 ≤ (activeDirection s).y ∧ (activeDirection s).y ≤ 1 := by
    rcases hd with h | h | h | h <;> rw [h] <;> simp
  have hwrap := wrapCell_eq s.gridSize
    { x := h.x + (activeDirection s).x, y := h.y + (activeDirection s).y } hg
    (by show -1 ≤ h.x + (activeDirection s).x; omega)
    (by show -1 ≤ h.y + (activeDirection s).y; omega)
  have hpst : (preMove s step).stats = s.stats := preMove_stats s step
  refine ⟨_, tick_eq rnd s step now _ hraw hgne, ?_, ?_⟩
  · intro hw
    by_cases ht : TimeExpired s step
    · rw [if_pos ht]
      rintro ⟨_, hsub, _⟩
      simp at hsub
    · rw [if_neg ht, if_pos hw]
      intro he
      rcases (moveTo_endedWith_iff rnd s _ _ now hpst _).1 he with ⟨h1, _⟩ | ⟨h1, _⟩ <;>
        exact absurd h1 (by decide)
  · intro ht
    rw [if_neg ht]
    refine ⟨fun hw => ?_, fun hw => ?_⟩
    · rw [if_pos hw]
      have hb : boundaryHead s = some (Cell.mk
          ((h.x + (activeDirection s).x) % (s.gridSize : Int))
          ((h.y + (activeDirection s).y) % (s.gridSize : Int))) := by
        simp only [boundaryHead, hraw, Option.map_some', hw, if_true, hwrap]
      have hpos : (0 : Int) < (s.gridSize : Int) := by omega
      refine ⟨hb, ⟨Int.emod_nonneg _ (by omega), Int.emod_lt_of_pos _ hpos,
        Int.emod_nonneg _ (by omega), Int.emod_lt_of_pos _ hpos⟩, by rw [hwrap], ?_, ?_, ?_, ?_⟩
      · intro hx hdir
        rw [hb, hdir]
        simp only [Option.some.injEq, Cell.mk.injEq]
        constructor
        · rw [hx]; simp
        · rw [add_zero]; exact Int.emod_eq_of_lt hy0 hy1
      · intro hx hdir
        rw [hb, hdir]
        simp only [Option.some.injEq, Cell.mk.injEq]
        constructor
        · rw [hx]
          have : (0 + -1 : Int) = ((s.gridSize : Int) - 1) + (-1) * (s.gridSize : Int) := by ring
          rw [this, Int.add_mul_emod_self]
          exact Int.emod_eq_of_lt (by omega) (by omega)
        · rw [add_zero]; exact Int.emod_eq_of_lt hy0 hy1
      · intro hy hdir
        rw [hb, hdir]
        simp only [Option.some.injEq, Cell.mk.injEq]
        constructor
        · rw [add_zero]; exact Int.emod_eq_of_lt hx0 hx1
        · rw [hy]; simp
      · intro hy hdir
        rw [hb, hdir]
        simp only [Option.some.injEq, Cell.mk.injEq]
        constructor
        · rw [add_zero]; exact Int.emod_eq_of_lt hx0 hx1
        · rw [hy]
          have : (0 + -1 : Int) = ((s.gridSize : Int) - 1) + (-1) * (s.gridSize : Int) := by ring
          rw [this, Int.add_mul_emod_self]
          exact Int.emod_eq_of_lt (by omega) (by omega)
    · have hw' : ¬ s.wrap = true := by simp [hw]
      rw [if_neg hw']
      by_cases ho : outOfBounds s.gridSize
          { x := h.x + (activeDirection s).x, y := h.y + (activeDirection s).y } = true
      · rw [if_pos ho]
        have hE : EndedWith s (endGame (preMove s step) Reason.wall) Reason.wall :=
          ⟨by simp [Ended], rfl, rfl⟩
        exact ⟨⟨fun _ => (outOfBounds_iff _ _).1 ho, fun _ => hE⟩, fun _ => by simp⟩
      · rw [if_neg ho]
        have hnot : ¬ EndedWith s (moveTo rnd (preMove s step) (teleport s.portals
            { x := h.x + (activeDirection s).x, y := h.y + (activeDirection s).y }) now)
            Reason.wall := by
          intro he
          rcases (moveTo_endedWith_iff rnd s _ _ now hpst _).1 he with ⟨h1, _⟩ | ⟨h1, _⟩ <;>
            exact absurd h1 (by decide)
        refine ⟨⟨fun he => absurd he hnot, fun hn => ?_⟩, fun he => absurd he hnot⟩
        exact absurd ((outOfBounds_iff _ _).2 hn) ho

/-- C3, worked example: head `(17,9)` moving right on the 18 grid with wrap off: the tick
ends the session with reason wall and leaves the snake in place. -/
theorem tick_boundary_witness :
    ∃ t, tick constDraws atRightEdge (1 / 7) 2000 = some t ∧
      EndedWith atRightEdge t Reason.wall ∧
      t.snake = [{ x := 17, y := 9 }, { x := 16, y := 9 }, { x := 15, y := 9 }] := by
  obtain ⟨t, ht, _, h⟩ := tick_boundary constDraws atRightEdge (1 / 7) 2000
    { x := 17, y := 9 } [{ x := 16, y := 9 }, { x := 15, y := 9 }]
    (by decide!) (by decide!) (by decide!) (by decide!)
  have hw := (h (by decide!)).2 (by decide!)
  have hE := hw.1.2 (by decide!)
  exact ⟨t, ht, hE, (hw.2 hE).1⟩

/-! ## C4: the portal teleport -/

theorem teleport_pair (A B c dest : Cell) (h : (c = A ∧ dest = B) ∨ (c = B ∧ dest = A)) :
    teleport [A, B] c = dest := by
  unfold teleport
  rcases h with ⟨rfl, rfl⟩ | ⟨rfl, rfl⟩
  · simp [sameCell_iff]
  · by_cases hAB : c = dest
    · simp [sameCell_iff, hAB]
    · simp [sameCell_iff, hAB]

/-- A tick that passes the time check and the boundary step is the move to the computed
head. -/
theorem tick_eq_moveTo (rnd : Rng) (s : State) (step now : ℚ) (c : Cell)
    (hnt : ¬ TimeExpired s step) (hgrid : s.wrap = true → s.gridSize ≠ 0)
    (hc : boundaryHead s = some c) (hin : s.wrap = false → InGrid s.gridSize c) :
    tick rnd s step now = some (moveTo rnd (preMove s step) (teleport s.portals c) now) := by
  unfold boundaryHead at hc
  cases hraw : rawHead (shiftDirection s) with
  | none => rw [hraw] at hc; exact absurd hc (by simp)
  | some raw =>
    rw [hraw] at hc
    simp only [Option.map_some', Option.some.injEq] at hc
    rw [tick_eq rnd s step now raw hraw hgrid, if_neg hnt]
    by_cases hw : s.wrap = true
    · rw [if_pos hw]; rw [if_pos hw] at hc; rw [hc]
    · rw [if_neg hw]; rw [if_neg hw] at hc
      simp only [Bool.not_eq_true] at hw
      have ho : ¬ outOfBounds s.gridSize raw = true := by
        rw [outOfBounds_iff]; rw [hc]; exact not_not.2 (hin hw)
      rw [if_neg ho, hc]

theorem boundaryHead_snake_ne (s : State) (c : Cell) (hc : boundaryHead s = some c) :
    s.snake ≠ [] := by
  intro h
  unfold boundaryHead rawHead at hc
  rw [shiftDirection_snake, h] at hc
  simp at hc

/-- C4: with exactly two portal cells `A` and `B`, a tick that passes the time check and the
boundary step with candidate head `A` works on `B`, and with candidate head `B` on `A`: that
destination is the computed head, the session ends with self-collision exactly when the
destination is a snake cell, with obstacle exactly when it is an obstacle cell and no snake
cell, and otherwise the destination becomes the new `snake[0]` in this same tick. Nothing
depends on the entry cell or on the direction of entry. -/
theorem tick_portal (rnd : Rng) (s : State) (step now : ℚ) (A B c dest : Cell)
    (hp : s.portals = [A, B]) (hnt : ¬ TimeExpired s step)
    (hgrid : s.wrap = true → s.gridSize ≠ 0)
    (hc : boundaryHead s = some c) (hin : s.wrap = false → InGrid s.gridSize c)
    (hdest : (c = A ∧ dest = B) ∨ (c = B ∧ dest = A)) :
    ∃ t, tick rnd s step now = some t ∧ computedHead s = some dest ∧
      (EndedWith s t Reason.selfCollision ↔ dest ∈ s.snake) ∧
      (EndedWith s t Reason.obstacle ↔ dest ∉ s.snake ∧ dest ∈ s.obstacles) ∧
      (Ended s t ↔ dest ∈ s.snake ∨ dest ∈ s.obstacles) ∧
      (¬ Ended s t → t.snake.head? = some dest) := by
  have htel : teleport s.portals c = dest := by rw [hp]; exact teleport_pair A B c dest hdest
  have hpst : (preMove s step).stats = s.stats := preMove_stats s step
  have hne : (preMove s step).snake ≠ [] := by
    rw [preMove_snake]; exact boundaryHead_snake_ne s c hc
  refine ⟨_, tick_eq_moveTo rnd s step now c hnt hgrid hc hin, ?_, ?_, ?_, ?_, ?_⟩
  · simp [computedHead, hc, htel]
  · rw [htel, moveTo_endedWith_iff rnd s _ dest now hpst]; simp
  · rw [htel, moveTo_endedWith_iff rnd s _ dest now hpst]; simp
  · rw [htel, moveTo_ended_iff rnd s _ dest now hpst]; simp
  · rw [htel]
    intro hn
    have hm := (moveTo_snake rnd (preMove s step) dest now hne).2
      (by simpa [Ended] using hn)
    by_cases hf : dest = (preMove s step).food
    · rw [(hm.1 hf).1]; rfl
    · rw [(hm.2 hf).1]; rfl

/-- C4, worked example: portals at `(10,9)` and `(11,9)`, head `(9,9)` moving right: the
tick enters `(10,9)` and commits `(11,9)` as the new head. -/
theorem tick_portal_witness :
    portalStart.portals = [{ x := 10, y := 9 }, { x := 11, y := 9 }] ∧
      ∃ t, tick portalDraws portalStart (1 / 7) 1000 = some t ∧
        computedHead portalStart = some { x := 11, y := 9 } ∧
        t.snake.head? = some { x := 11, y := 9 } := by
  refine ⟨by decide!, ?_⟩
  obtain ⟨t, ht, hh, _, _, he, hs⟩ := tick_portal portalDraws portalStart (1 / 7) 1000
    { x := 10, y := 9 } { x := 11, y := 9 } { x := 10, y := 9 } { x := 11, y := 9 }
    (by decide!) (by decide!) (by decide!) (by decide!) (by decide!) (Or.inl ⟨rfl, rfl⟩)
  exact ⟨t, ht, hh, hs (fun h => absurd (he.1 h) (by decide!))⟩

/-! ## C5: the self-collision check -/

theorem unitDir_bounds (d : Cell) (h : UnitDir d) :
    -1 ≤ d.x ∧ d.x ≤ 1 ∧ -1 ≤ d.y ∧ d.y ≤ 1 ∧ (d.x + d.y = 1 ∨ d.x + d.y = -1) := by
  rcases h with h | h | h | h <;> rw [h] <;> simp

/-- Three unit steps on a grid of size at least 4 never return to the starting cell, also
when coordinates are read modulo the grid size. -/
theorem three_steps_ne (g : Nat) (hg : 4 ≤ g) (h a b c : Cell)
    (h1 : StepFrom g h a) (h2 : StepFrom g a b) (h3 : StepFrom g b c) : h ≠ c := by
  rintro rfl
  obtain ⟨d1, u1, x1, y1⟩ := h1
  obtain ⟨d2, u2, x2, y2⟩ := h2
  obtain ⟨d3, u3, x3, y3⟩ := h3
  have b1 := unitDir_bounds d1 u1
  have b2 := unitDir_bounds d2 u2
  have b3 := unitDir_bounds d3 u3
  have hg' : (4 : Int) ≤ (g : Int) := by exact_mod_cast hg
  have dx : (g : Int) ∣ d1.x + d2.x + d3.x := by
    have := Int.dvd_add (Int.dvd_add (Int.dvd_of_emod_eq_zero x1) (Int.dvd_of_emod_eq_zero x2))
      (Int.dvd_of_emod_eq_zero x3)
    have e : h.x - (a.x + d1.x) + (a.x - (b.x + d2.x)) + (b.x - (h.x + d3.x))
        = -(d1.x + d2.x + d3.x) := by ring
    rw [e] at this
    exact (Int.dvd_neg.1 this)
  have dy : (g : Int) ∣ d1.y + d2.y + d3.y := by
    have := Int.dvd_add (Int.dvd_add (Int.dvd_of_emod_eq_zero y1) (Int.dvd_of_emod_eq_zero y2))
      (Int.dvd_of_emod_eq_zero y3)
    have e : h.y - (a.y + d1.y) + (a.y - (b.y + d2.y)) + (b.y - (h.y + d3.y))
        = -(d1.y + d2.y + d3.y) := by ring
    rw [e] at this
    exact (Int.dvd_neg.1 this)
  have zx : d1.x + d2.x + d3.x = 0 :=
    Int.eq_zero_of_abs_lt_dvd dx (by rw [abs_lt]; constructor <;> omega)
  have zy : d1.y + d2.y + d3.y = 0 :=
    Int.eq_zero_of_abs_lt_dvd dy (by rw [abs_lt]; constructor <;> omega)
  omega

theorem teleport_no_pair (portals : List Cell) (c : Cell) (h : portals.length ≠ 2) :
    teleport portals c = c := by
  unfold teleport
  split
  · exact absurd rfl h
  · rfl

theorem wrapCell_congr (g : Nat) (c : Cell) :
    ((wrapCell g c).x - c.x) % (g : Int) = 0 ∧ ((wrapCell g c).y - c.y) % (g : Int) = 0 := by
  unfold wrapCell
  simp only [Int.tmod_def]
  constructor
  · have : c.x + (g : Int) - (g : Int) * (c.x + (g : Int)).tdiv (g : Int) - c.x
        = (g : Int) * (1 - (c.x + (g : Int)).tdiv (g : Int)) := by ring
    rw [this]; exact Int.mul_emod_right _ _
  · have : c.y + (g : Int) - (g : Int) * (c.y + (g : Int)).tdiv (g : Int) - c.y
        = (g : Int) * (1 - (c.y + (g : Int)).tdiv (g : Int)) := by ring
    rw [this]; exact Int.mul_emod_right _ _

/-- Without a portal pair the computed head is one unit step from `snake[0]`. -/
theorem computedHead_stepFrom (s : State) (a head : Cell) (rest : List Cell)
    (hp : s.portals.length ≠ 2) (hs : s.snake = a :: rest) (hd : UnitDir (activeDirection s))
    (hh : computedHead s = some head) : StepFrom s.gridSize head a := by
  have hraw := rawHead_cons s a rest hs
  simp only [computedHead, boundaryHead, hraw, Option.map_some', Option.some.injEq,
    teleport_no_pair _ _ hp] at hh
  refine ⟨activeDirection s, hd, ?_, ?_⟩
  · by_cases hw : s.wrap = true
    · rw [if_pos hw] at hh; rw [← hh]
      exact (wrapCell_congr s.gridSize _).1
    · rw [if_neg hw] at hh; rw [← hh]; simp
  · by_cases hw : s.wrap = true
    · rw [if_pos hw] at hh; rw [← hh]
      exact (wrapCell_congr s.gridSize _).2
    · rw [if_neg hw] at hh; rw [← hh]; simp

/-- C5 (amended): the self-collision check uses the snake as it was before the head is
added, tail cell included: a tick that passes the time check and the boundary step ends
with reason self-collision exactly when its computed head is a cell of the pre-tick snake.
On a grid of size at least 4 without a portal pair, a 3-cell snake whose consecutive cells
are one unit step apart (modulo the grid size) and which moves by a unit direction never has
its own tail cell as computed head, whatever the wrap setting. -/
theorem self_collision_check (rnd : Rng) :
    (∀ (s t : State) (step now : ℚ), tick rnd s step now = some t → ¬ TimeExpired s step →
      ¬ EndedWith s t Reason.wall →
      (EndedWith s t Reason.selfCollision ↔
        ∃ head, computedHead s = some head ∧ head ∈ s.snake)) ∧
    (∀ (s : State) (a b c : Cell), 4 ≤ s.gridSize → s.portals.length ≠ 2 →
      s.snake = [a, b, c] → StepFrom s.gridSize a b → StepFrom s.gridSize b c →
      UnitDir (activeDirection s) → computedHead s ≠ some c) := by
  constructor
  · intro s t step now ht hnt hnw
    rcases tick_some_cases rnd s t step now ht with ⟨h, _⟩ | ⟨_, _, h⟩ | ⟨_, head, hh, h⟩
    · exact absurd h hnt
    · exact absurd (show EndedWith s t Reason.wall by
        rw [h]; exact ⟨by simp [Ended], rfl, rfl⟩) hnw
    · rw [h, moveTo_endedWith_iff rnd s _ head now (preMove_stats s step), hh]
      simp
  · intro s a b c hg hp hs h1 h2 hd hh
    exact three_steps_ne s.gridSize hg c a b c
      (computedHead_stepFrom s a c [b, c] hp hs hd hh) h1 h2 rfl

/-- C5, worked example for the amended claim: the fresh snake `[(9,9),(8,9),(7,9)]` on the
18 grid, facing right, does not have its tail cell `(7,9)` as computed head. -/
theorem self_collision_check_witness :
    (resetState constDraws (pageLoad Mode.classic 18 false)).snake
        = [{ x := 9, y := 9 }, { x := 8, y := 9 }, { x := 7, y := 9 }] ∧
      computedHead (resetState constDraws (pageLoad Mode.classic 18 false))
        ≠ some { x := 7, y := 9 } :=
  ⟨by decide!,
    (self_collision_check constDraws).2 (resetState constDraws (pageLoad Mode.classic 18 false))
      { x := 9, y := 9 } { x := 8, y := 9 } { x := 7, y := 9 } (by decide!) (by decide!)
      (by decide!) ⟨{ x := 1, y := 0 }, by decide!, by decide!, by decide!⟩
      ⟨{ x := 1, y := 0 }, by decide!, by decide!, by decide!⟩ (by decide!)⟩

/-- C5, counterexample to the claim as stated. (1) Grid 3, wrap on: one tick after the start
the snake is `[(2,1),(1,1),(0,1)]`, the food is elsewhere, and the next tick, moving
forward, wraps onto the tail cell `(0,1)` and ends with self-collision. (2) Grid 18, portals
at `(10,9)` and `(11,9)`: after `portalLoop` the snake is `[(10,8),(11,8),(11,9)]`, and the
next tick enters `(10,9)`, is teleported onto the tail cell `(11,9)` and ends with
self-collision. In both ticks the cell hit is the last cell of a 3-cell snake, which a
non-growing move vacates. -/
theorem tail_collision_counterexample :
    (run constDraws smallWrap [Event.tick (1 / 7) 100]
        = some (runD constDraws smallWrap [Event.tick (1 / 7) 100]) ∧
      (runD constDraws smallWrap [Event.tick (1 / 7) 100]).snake
        = [{ x := 2, y := 1 }, { x := 1, y := 1 }, { x := 0, y := 1 }] ∧
      (runD constDraws smallWrap [Event.tick (1 / 7) 100]).food = { x := 0, y := 0 } ∧
      computedHead (runD constDraws smallWrap [Event.tick (1 / 7) 100])
        = some { x := 0, y := 1 } ∧
      ∃ t, tick constDraws (runD constDraws smallWrap [Event.tick (1 / 7) 100]) (1 / 7) 200
          = some t ∧
        EndedWith (runD constDraws smallWrap [Event.tick (1 / 7) 100]) t
          Reason.selfCollision) ∧
    (run portalDraws portalStart portalLoop = some (runD portalDraws portalStart portalLoop) ∧
      (runD portalDraws portalStart portalLoop).snake
        = [{ x := 10, y := 8 }, { x := 11, y := 8 }, { x := 11, y := 9 }] ∧
      (runD portalDraws portalStart portalLoop).food = { x := 0, y := 0 } ∧
      computedHead (runD portalDraws portalStart portalLoop) = some { x := 11, y := 9 } ∧
      ∃ t, tick portalDraws (runD portalDraws portalStart portalLoop) (1 / 7) 400 = some t ∧
        EndedWith (runD portalDraws portalStart portalLoop) t Reason.selfCollision) := by
  refine ⟨⟨by decide!, by decide!, by decide!, by decide!, ?_⟩,
    ⟨by decide!, by decide!, by decide!, by decide!, ?_⟩⟩
  · exact ⟨endGame (preMove (runD constDraws smallWrap [Event.tick (1 / 7) 100]) (1 / 7))
      Reason.selfCollision, by decide!, by decide!⟩
  · exact ⟨endGame (preMove (runD portalDraws portalStart portalLoop) (1 / 7))
      Reason.selfCollision, by decide!, by decide!⟩

/-! ## C6: combo and score -/

theorem reachable_combo_score (rnd : Rng) (s : State) (h : Reachable rnd s) :
    1 ≤ s.combo ∧ s.combo ≤ 6 ∧ 10 ∣ s.score := by
  induction h with
  | reset s0 => simp
  | start s0 now h0 => rw [startGame_eq rnd s0 now h0]; simp
  | turn s x y _ ih => simpa using ih
  | tick s t step now _ ht ih =>
    rcases tick_pickup_cases rnd s t step now ht with
      ⟨_, _, hc, hs, _⟩ | ⟨_, _, _, _, hc, hs, _⟩
    · rw [hc, hs]; exact ih
    · have hb : 1 ≤ t.combo ∧ t.combo ≤ 6 := by
        rw [hc]; split_ifs
        · exact ⟨by omega, min_le_right _ _⟩
        · omega
      refine ⟨hb.1, hb.2, ?_⟩
      rw [hs]
      exact Dvd.dvd.add ih.2.2 (Dvd.intro _ rfl)

/-- C6: a tick picks up food exactly when it does not end the session and its computed head
is the food cell. At a pickup with clock value `now` the new combo is `min (combo + 1) 6`
when `now - lastFoodTimestamp < 2800` and 1 otherwise, the score grows by exactly 10 times
the new combo and `lastFoodTimestamp` becomes `now`; any other tick leaves all three
unchanged. Hence in every reachable state the combo is within 1..6 and the score is a
multiple of 10. -/
theorem combo_score (rnd : Rng) :
    (∀ (s t : State) (step now : ℚ), tick rnd s step now = some t →
      (Pickup s t ↔ ¬ Ended s t ∧ computedHead s = some s.food) ∧
      (Pickup s t →
        t.combo = (if now - s.lastFoodTimestamp < 2800 then min (s.combo + 1) 6 else 1) ∧
        t.score = s.score + 10 * t.combo ∧ t.lastFoodTimestamp = now) ∧
      (¬ Pickup s t →
        t.combo = s.combo ∧ t.score = s.score ∧
        t.lastFoodTimestamp = s.lastFoodTimestamp)) ∧
    (∀ s : State, Reachable rnd s → 1 ≤ s.combo ∧ s.combo ≤ 6 ∧ 10 ∣ s.score) := by
  refine ⟨?_, reachable_combo_score rnd⟩
  intro s t step now ht
  rcases tick_pickup_cases rnd s t step now ht with
    ⟨hnp, hor, hc, hs, hl, _⟩ | ⟨hp, hne, hh, _, hc, hs, hl, _⟩
  · refine ⟨⟨fun hp => absurd hp hnp, fun ⟨h1, h2⟩ => ?_⟩, fun hp => absurd hp hnp,
      fun _ => ⟨hc, hs, hl⟩⟩
    rcases hor with h | h
    · exact absurd h h1
    · exact absurd h2 h
  · exact ⟨⟨fun _ => ⟨hne, hh⟩, fun _ => hp⟩, fun _ => ⟨hc, hs, hl⟩, fun hn => absurd hp hn⟩

/-- C6, worked example: the session `lateStart` picks up its first food at clock 11000
(combo 1, score 10) and its second at clock 12000, 1000 ms later: combo 2, score 30. -/
theorem combo_score_witness :
    run foodDraws lateStart [Event.tick (1 / 7) 11000]
        = some (runD foodDraws lateStart [Event.tick (1 / 7) 11000]) ∧
      (runD foodDraws lateStart [Event.tick (1 / 7) 11000]).combo = 1 ∧
      (runD foodDraws lateStart [Event.tick (1 / 7) 11000]).score = 10 ∧
      ∃ t, tick foodDraws (runD foodDraws lateStart [Event.tick (1 / 7) 11000]) (1 / 7) 12000
          = some t ∧
        Pickup (runD foodDraws lateStart [Event.tick (1 / 7) 11000]) t ∧
        t.combo = 2 ∧ t.score = 30 := by
  refine ⟨by decide!, by decide!, by decide!, ?_⟩
  have ht : tick foodDraws (runD foodDraws lateStart [Event.tick (1 / 7) 11000]) (1 / 7) 12000
      = some (runD foodDraws lateStart [Event.tick (1 / 7) 11000, Event.tick (1 / 7) 12000]) := by
    decide!
  have hp : Pickup (runD foodDraws lateStart [Event.tick (1 / 7) 11000])
      (runD foodDraws lateStart [Event.tick (1 / 7) 11000, Event.tick (1 / 7) 12000]) := by
    unfold Pickup; decide!
  have h := ((combo_score foodDraws).1 _ _ _ _ ht).2.1 hp
  have hc : (runD foodDraws lateStart
      [Event.tick (1 / 7) 11000, Event.tick (1 / 7) 12000]).combo = 2 := by
    rw [h.1]; decide!
  refine ⟨_, ht, hp, hc, ?_⟩
  rw [h.2.1, hc]; decide!

/-! ## C7: the first pickup of a session -/

theorem reachable_of_run (rnd : Rng) (evs : List Event) :
    ∀ (s t : State), Reachable rnd s → run rnd s evs = some t → Reachable rnd t := by
  induction evs with
  | nil => intro s t hs h; simp only [run, Option.some.injEq] at h; rw [← h]; exact hs
  | cons e rest ih =>
    intro s t hs h
    simp only [run] at h
    cases hu : applyEvent rnd s e with
    | none => rw [hu] at h; simp at h
    | some u =>
      rw [hu] at h
      simp only [Option.some_bind] at h
      refine ih u t ?_ h
      cases e with
      | turn x y =>
        simp only [applyEvent, Option.some.injEq] at hu
        rw [← hu]; exact Reachable.turn s x y hs
      | tick step now => exact Reachable.tick s u step now hs hu

/-- Before the first pickup of a session the combo variables still have their reset
values. -/
theorem reachable_before_first_pickup (rnd : Rng) (s : State) (h : Reachable rnd s)
    (h0 : s.foodCollected = 0) : s.lastFoodTimestamp = 0 ∧ s.combo = 1 := by
  induction h with
  | reset s0 => simp
  | start s0 now hr => rw [startGame_eq rnd s0 now hr]; simp
  | turn s x y _ ih => simpa using ih (by simpa using h0)
  | tick s t step now _ ht ih =>
    rcases tick_pickup_cases rnd s t step now ht with
      ⟨_, _, hc, _, hl, _, hf⟩ | ⟨hp, _⟩
    · rw [hc, hl]; exact ih (by rw [← hf]; exact h0)
    · unfold Pickup at hp; omega

/-- C7 (amended): the combo window of the first pickup is measured from clock value 0, to
which `resetState` sets `lastFoodTimestamp`, not from the session start. For a session
started at any clock value `t0`, the first pickup at clock value `t1` sets the combo to 2
when `t1 < 2800` and to 1 when `t1 ≥ 2800`. -/
theorem first_pickup_combo (rnd : Rng) (s0 : State) (t0 : ℚ) (evs : List Event)
    (s t : State) (step t1 : ℚ) (hstop : s0.running = false)
    (hrun : run rnd (startGame rnd s0 t0) evs = some s) (hfirst : s.foodCollected = 0)
    (ht : tick rnd s step t1 = some t) (hp : Pickup s t) :
    t.combo = if t1 < 2800 then 2 else 1 := by
  have hre := reachable_of_run rnd evs _ s (Reachable.start s0 t0 hstop) hrun
  obtain ⟨hl, hc⟩ := reachable_before_first_pickup rnd s hre hfirst
  rcases tick_pickup_cases rnd s t step t1 ht with ⟨hnp, _⟩ | ⟨_, _, _, _, hcombo, _⟩
  · exact absurd hp hnp
  · rw [hcombo, hl, hc]
    simp

/-- C7, worked example for the amended claim: a session started at clock 10000 whose first
pickup happens at clock 11000 has combo 1 afterwards. -/
theorem first_pickup_combo_witness :
    (runD foodDraws lateStart [Event.tick (1 / 7) 11000]).combo = 1 := by
  have h := first_pickup_combo foodDraws (pageLoad Mode.classic 18 false) 10000 [] lateStart
    (runD foodDraws lateStart [Event.tick (1 / 7) 11000]) (1 / 7) 11000
    (by decide!) (by decide!) (by decide!) (by decide!) (by decide!)
  rw [h]; decide!

/-- C7, counterexample to the claim as stated: the session `lateStart` starts at clock 10000
and picks up its first food at clock 11000, 1000 ms after the start, yet the combo becomes
1, not 2. -/
theorem first_pickup_counterexample :
    lateStart.running = true ∧ lateStart.lastFrame = 10000 ∧ lateStart.foodCollected = 0 ∧
      (11000 - 10000 : ℚ) < 2800 ∧
      ∃ t, tick foodDraws lateStart (1 / 7) 11000 = some t ∧ Pickup lateStart t ∧
        t.combo = 1 ∧ t.combo ≠ 2 :=
  ⟨by decide!, by decide!, by decide!, by decide!,
    runD foodDraws lateStart [Event.tick (1 / 7) 11000], by decide!, by decide!, by decide!,
    by decide!⟩

/-! ## C8: the rush speed ramp -/

theorem min_min_add (a k : ℚ) (hk : 0 ≤ k) : min (min a 18 + k) 18 = min (a + k) 18 := by
  rcases le_total a 18 with h | h
  · rw [min_eq_left h]
  · rw [min_eq_right h, min_eq_right (by linarith), min_eq_right (by linarith)]

theorem tick_mode (rnd : Rng) (s t : State) (step now : ℚ)
    (h : tick rnd s step now = some t) : t.mode = s.mode := by
  rcases tick_some_cases rnd s t step now h with ⟨_, rfl⟩ | ⟨_, _, rfl⟩ | ⟨_, head, _, rfl⟩ <;>
    simp

theorem tick_foodCollected_le (rnd : Rng) (s t : State) (step now : ℚ)
    (h : tick rnd s step now = some t) : s.foodCollected ≤ t.foodCollected := by
  rcases tick_pickup_cases rnd s t step now h with ⟨_, _, _, _, _, _, hf⟩ | ⟨hp, _⟩
  · omega
  · unfold Pickup at hp; omega

theorem run_foodCollected_le (rnd : Rng) (evs : List Event) :
    ∀ (s t : State), run rnd s evs = some t → s.foodCollected ≤ t.foodCollected := by
  induction evs with
  | nil => intro s t h; simp only [run, Option.some.injEq] at h; rw [h]
  | cons e rest ih =>
    intro s t h
    simp only [run] at h
    cases hu : applyEvent rnd s e with
    | none => rw [hu] at h; simp at h
    | some u =>
      rw [hu] at h
      simp only [Option.some_bind] at h
      refine le_trans ?_ (ih u t h)
      cases e with
      | turn x y =>
        simp only [applyEvent, Option.some.injEq] at hu
        rw [← hu]; simp
      | tick step now => exact tick_foodCollected_le rnd s u step now hu

theorem run_speed (rnd : Rng) (evs : List Event) :
    ∀ (s t : State) (n : Nat), run rnd s evs = some t →
      t.foodCollected = s.foodCollected + n → s.speed ≤ 18 →
      (s.mode = Mode.rush → t.speed = min (s.speed + 3 * (n : ℚ) / 10) 18) ∧
      (s.mode ≠ Mode.rush → t.speed = s.speed) := by
  induction evs with
  | nil =>
    intro s t n h hn hs
    simp only [run, Option.some.injEq] at h
    subst h
    have : n = 0 := by omega
    subst this
    simp [hs]
  | cons e rest ih =>
    intro s t n h hn hs
    simp only [run] at h
    cases hu : applyEvent rnd s e with
    | none => rw [hu] at h; simp at h
    | some u =>
      rw [hu] at h
      simp only [Option.some_bind] at h
      have hmono := run_foodCollected_le rnd rest u t h
      cases e with
      | turn x y =>
        simp only [applyEvent, Option.some.injEq] at hu
        subst hu
        have := ih _ t n h (by simpa using hn) (by simpa using hs)
        simpa using this
      | tick step now =>
        have hu' : tick rnd s step now = some u := hu
        have hm := tick_mode rnd s u step now hu'
        rcases tick_pickup_cases rnd s u step now hu' with
          ⟨_, _, _, _, _, hsp, hf⟩ | ⟨hp, _, _, _, _, _, _, hsp⟩
        · have := ih u t n h (by rw [hf]; exact hn) (by rw [hsp]; exact hs)
          rw [hm, hsp] at this
          exact this
        · unfold Pickup at hp
          obtain ⟨m, rfl⟩ : ∃ m, n = m + 1 := ⟨n - 1, by omega⟩
          have hle : u.speed ≤ 18 := by
            rw [hsp]; split_ifs
            · exact min_le_right _ _
            · exact hs
          have := ih u t m h (by omega) hle
          rw [hm] at this
          refine ⟨fun hr => ?_, fun hr => ?_⟩
          · rw [this.1 hr, hsp, if_pos hr, min_min_add _ _ (by positivity)]
            congr 1
            push_cast
            ring
          · rw [this.2 hr, hsp, if_neg hr]

/-- C8: a pickup in rush mode sets the tick rate to `min (speed + 3/10) 18`; a pickup in any
other mode, and a tick without pickup, leave it unchanged. Hence over any sequence of
events that starts with a tick rate `s ≤ 18` and contains `n` pickups, the tick rate ends
at `min (s + 3 n / 10) 18` in rush mode (exact rational arithmetic) and at `s` in every
other mode; it never exceeds 18 and never decreases. -/
theorem speed_ramp (rnd : Rng) :
    (∀ (s t : State) (step now : ℚ), tick rnd s step now = some t →
      (Pickup s t → s.mode = Mode.rush → t.speed = min (s.speed + 3 / 10) 18) ∧
      (Pickup s t → s.mode ≠ Mode.rush → t.speed = s.speed) ∧
      (¬ Pickup s t → t.speed = s.speed)) ∧
    (∀ (s t : State) (evs : List Event) (n : Nat), run rnd s evs = some t →
      t.foodCollected = s.foodCollected + n → s.speed ≤ 18 →
      (s.mode = Mode.rush → t.speed = min (s.speed + 3 * (n : ℚ) / 10) 18) ∧
      (s.mode ≠ Mode.rush → t.speed = s.speed) ∧
      t.speed ≤ 18 ∧ s.speed ≤ t.speed) := by
  constructor
  · intro s t step now ht
    rcases tick_pickup_cases rnd s t step now ht with
      ⟨hnp, _, _, _, _, hsp, _⟩ | ⟨hp, _, _, _, _, _, _, hsp⟩
    · exact ⟨fun hp => absurd hp hnp, fun hp => absurd hp hnp, fun _ => hsp⟩
    · exact ⟨fun _ hr => by rw [hsp, if_pos hr], fun _ hr => by rw [hsp, if_neg hr],
        fun hn => absurd hp hn⟩
  · intro s t evs n hrun hn hs
    have h := run_speed rnd evs s t n hrun hn hs
    refine ⟨h.1, h.2, ?_, ?_⟩
    · by_cases hr : s.mode = Mode.rush
      · rw [h.1 hr]; exact min_le_right _ _
      · rw [h.2 hr]; exact hs
    · by_cases hr : s.mode = Mode.rush
      · rw [h.1 hr]
        refine le_min ?_ hs
        have : (0 : ℚ) ≤ 3 * (n : ℚ) / 10 := by positivity
        linarith
      · rw [h.2 hr]

/-- C8, worked example: rush mode, tick rate 7; after 3 pickups the tick rate is 7.9. -/
theorem speed_ramp_witness :
    rushStart.speed = 7 ∧
      run foodDraws rushStart threeTicks = some (runD foodDraws rushStart threeTicks) ∧
      (runD foodDraws rushStart threeTicks).foodCollected = 3 ∧
      (runD foodDraws rushStart threeTicks).speed = 79 / 10 := by
  have hrun : run foodDraws rushStart threeTicks
      = some (runD foodDraws rushStart threeTicks) := by decide!
  have h := ((speed_ramp foodDraws).2 rushStart (runD foodDraws rushStart threeTicks)
    threeTicks 3 hrun (by decide!) (by decide!)).1 (by decide!)
  refine ⟨by decide!, hrun, by decide!, ?_⟩
  rw [h]; decide!

/-! ## C9: where the food is -/

theorem occupiedCell_false_iff (s : State) (c : Cell) :
    occupiedCell s c = false ↔ c ∉ s.snake ∧ c ∉ s.obstacles ∧ c ∉ s.portals := by
  unfold occupiedCell
  rw [← Bool.not_eq_true, Bool.or_eq_true, Bool.or_eq_true, any_sameCell_iff, any_sameCell_iff,
    any_sameCell_iff]
  tauto

/-- The loop of `randomEmptyCell` returns an unoccupied cell, or the fallback `(1,1)` after
`budget` draws that all hit occupied cells. -/
theorem randomEmptyCellLoop_spec (rnd : Rng) (s : State) :
    ∀ (budget pos : Nat),
      occupiedCell s (randomEmptyCellLoop rnd s budget pos).1 = false ∨
      ((randomEmptyCellLoop rnd s budget pos).1 = { x := 1, y := 1 } ∧
        ∀ i, i < budget → occupiedCell s (randomCell rnd s.gridSize (pos + 2 * i)) = true) := by
  intro budget
  induction budget with
  | zero => intro pos; right; exact ⟨rfl, fun i hi => absurd hi (by omega)⟩
  | succ b ih =>
    intro pos
    unfold randomEmptyCellLoop
    dsimp only
    by_cases ho : occupiedCell s (randomCell rnd s.gridSize pos) = true
    · rw [if_pos ho]
      rcases ih (pos + 2) with h | ⟨h1, h2⟩
      · exact Or.inl h
      · right
        refine ⟨h1, fun i hi => ?_⟩
        cases i with
        | zero => simpa using ho
        | succ j =>
          have := h2 j (by omega)
          have e : pos + 2 + 2 * j = pos + 2 * (j + 1) := by ring
          rw [e] at this; exact this
    · rw [if_neg ho]
      left; simpa using ho

theorem spawnFood_food (rnd : Rng) (s : State) :
    (spawnFood rnd s).food = { x := 1, y := 1 } ∨
      ((spawnFood rnd s).food ∉ s.snake ∧ (spawnFood rnd s).food ∉ s.obstacles ∧
        (spawnFood rnd s).food ∉ s.portals) := by
  rcases randomEmptyCellLoop_spec rnd s 400 s.drawn with h | ⟨h, _⟩
  · right; exact (occupiedCell_false_iff s _).1 h
  · left; exact h

theorem resetState_food (rnd : Rng) (s : State) :
    (resetState rnd s).food = { x := 1, y := 1 } ∨
      ((resetState rnd s).food ∉ (resetState rnd s).snake ∧
        (resetState rnd s).food ∉ (resetState rnd s).obstacles ∧
        (resetState rnd s).food ∉ (resetState rnd s).portals) := by
  unfold resetState
  exact spawnFood_food rnd _

theorem eatFood_food (rnd : Rng) (s : State) (now : ℚ) :
    (eatFood rnd s now).food = { x := 1, y := 1 } ∨
      ((eatFood rnd s now).food ∉ (eatFood rnd s now).snake ∧
        (eatFood rnd s now).food ∉ (eatFood rnd s now).obstacles ∧
        (eatFood rnd s now).food ∉ (eatFood rnd s now).portals) := by
  unfold eatFood
  exact spawnFood_food rnd _

theorem reachable_food (rnd : Rng) (s : State) (h : Reachable rnd s) :
    s.food = { x := 1, y := 1 } ∨
      (s.food ∉ s.snake ∧ s.food ∉ s.obstacles ∧ s.food ∉ s.portals) := by
  induction h with
  | reset s0 => exact resetState_food rnd s0
  | start s0 now h0 => rw [startGame_eq rnd s0 now h0]; exact resetState_food rnd s0
  | turn s x y _ ih => simpa using ih
  | tick s t step now _ ht ih =>
    rcases tick_some_cases rnd s t step now ht with ⟨_, rfl⟩ | ⟨_, _, rfl⟩ | ⟨_, head, _, rfl⟩
    · exact ih
    · simpa using ih
    · rcases moveTo_cases rnd (preMove s step) head now with
        ⟨_, h⟩ | ⟨_, _, h⟩ | ⟨_, _, _, h⟩ | ⟨_, _, hf, h⟩
      · rw [h]; simpa using ih
      · rw [h]; simpa using ih
      · rw [h]; exact eatFood_food rnd _ now
      · rw [h]
        rcases ih with h1 | ⟨h1, h2, h3⟩
        · left; simpa using h1
        · right
          refine ⟨?_, by simpa using h2, by simpa using h3⟩
          intro hm
          have hm' : s.food ∈ (head :: s.snake).dropLast := by simpa using hm
          have hm2 := List.mem_of_mem_dropLast hm'
          rcases List.mem_cons.1 hm2 with e | e
          · exact hf (by simpa using e.symm)
          · exact h1 e

/-- C9 (amended): in every state reached from `resetState` or `startGame` by
`handleDirection` calls and ticks, the food cell is the fallback cell `(1,1)` of
`randomEmptyCell` or it equals no snake cell, no obstacle cell and no portal cell; and
`spawnFood` puts the food on an occupied cell only when all 400 cells it drew were occupied,
in which case the food is `(1,1)`. -/
theorem food_disjoint (rnd : Rng) :
    (∀ s : State, Reachable rnd s →
      s.food = { x := 1, y := 1 } ∨
        (s.food ∉ s.snake ∧ s.food ∉ s.obstacles ∧ s.food ∉ s.portals)) ∧
    (∀ s : State, occupiedCell s (spawnFood rnd s).food = true →
      (spawnFood rnd s).food = { x := 1, y := 1 } ∧
        ∀ i, i < 400 → occupiedCell s (randomCell rnd s.gridSize (s.drawn + 2 * i)) = true) := by
  refine ⟨reachable_food rnd, fun s ho => ?_⟩
  rcases randomEmptyCellLoop_spec rnd s 400 s.drawn with h | h
  · have ho' : occupiedCell s (randomEmptyCellLoop rnd s 400 s.drawn).1 = true := ho
    rw [h] at ho'; exact absurd ho' (by simp)
  · exact h

/-- C9, counterexample to the claim as stated: the labyrinth session `labStart` is running,
its only obstacle is `(1,1)`, and its food, the fallback of 400 occupied draws, is on that
obstacle. -/
theorem food_on_obstacle_counterexample :
    Reachable constDraws labStart ∧ labStart.running = true ∧
      labStart.obstacles = [{ x := 1, y := 1 }] ∧ labStart.food = { x := 1, y := 1 } ∧
      labStart.food ∈ labStart.obstacles :=
  ⟨Reachable.start (pageLoad Mode.labyrinth 18 false) 0 rfl, by decide!, by decide!,
    by decide!, by decide!⟩

/-! ## C10: obstacle generation -/

theorem floor_draw_bounds (r : UnitDraw) (g : Nat) (hg : 1 ≤ g) :
    0 ≤ Rat.floor (r.val * (g : ℚ)) ∧ Rat.floor (r.val * (g : ℚ)) < (g : Int) := by
  have hgq : (0 : ℚ) < (g : ℚ) := by exact_mod_cast hg
  constructor
  · apply Rat.le_floor.2
    have := mul_nonneg r.property.1 hgq.le
    simpa using this
  · by_contra hc
    have h1 := Rat.le_floor.1 (not_lt.1 hc)
    have h2 : r.val * (g : ℚ) < (g : ℚ) := by
      have := mul_lt_mul_of_pos_right r.property.2 hgq
      simpa using this
    have h3 : (((g : Int) : ℚ)) = (g : ℚ) := by push_cast; rfl
    rw [h3] at h1
    linarith

theorem randomCell_inGrid (rnd : Rng) (g pos : Nat) (hg : 1 ≤ g) :
    InGrid g (randomCell rnd g pos) := by
  have hx := floor_draw_bounds (rnd pos) g hg
  have hy := floor_draw_bounds (rnd (pos + 1)) g hg
  exact ⟨hx.1, hx.2, hy.1, hy.2⟩

theorem obstacleTarget_pos (g : Nat) (h : 0 < obstacleTarget g) : 1 ≤ g := by
  rcases Nat.eq_zero_or_pos g with h0 | h0
  · subst h0; simp [obstacleTarget] at h
  · exact h0

theorem isNearStart_false_iff (g : Nat) (c : Cell) :
    isNearStart g c = false ↔
      ¬ (|c.x - ((g / 2 : Nat) : Int)| < 3 ∧ |c.y - ((g / 2 : Nat) : Int)| < 3) := by
  unfold isNearStart
  rw [← Bool.not_eq_true, Bool.and_eq_true, decide_eq_true_eq, decide_eq_true_eq]

theorem generateObstaclesLoop_spec (rnd : Rng) (g : Nat) (snake : List Cell) (pos0 : Nat) :
    ∀ (budget guard : Nat) (blocks : List Cell), GoodBlocks g snake blocks →
      GoodBlocks g snake (generateObstaclesLoop rnd g snake pos0 budget guard blocks).1 ∧
      (generateObstaclesLoop rnd g snake pos0 budget guard blocks).2 ≤ guard + budget ∧
      ((generateObstaclesLoop rnd g snake pos0 budget guard blocks).1.length
          < obstacleTarget g →
        (generateObstaclesLoop rnd g snake pos0 budget guard blocks).2 = guard + budget) := by
  intro budget
  induction budget with
  | zero => intro guard blocks hb; exact ⟨hb, le_refl _, fun _ => rfl⟩
  | succ b ih =>
    intro guard blocks hb
    unfold generateObstaclesLoop
    by_cases hl : blocks.length < obstacleTarget g
    · rw [if_pos hl]
      dsimp only
      have step : ∀ bl, GoodBlocks g snake bl →
          GoodBlocks g snake (generateObstaclesLoop rnd g snake pos0 b (guard + 1) bl).1 ∧
          (generateObstaclesLoop rnd g snake pos0 b (guard + 1) bl).2 ≤ guard + (b + 1) ∧
          ((generateObstaclesLoop rnd g snake pos0 b (guard + 1) bl).1.length
              < obstacleTarget g →
            (generateObstaclesLoop rnd g snake pos0 b (guard + 1) bl).2 = guard + (b + 1)) := by
        intro bl hbl
        have := ih (guard + 1) bl hbl
        refine ⟨this.1, by omega, fun h => ?_⟩
        have := this.2.2 h
        omega
      split_ifs with hc
      · apply step
        simp only [Bool.and_eq_true, Bool.not_eq_true', Bool.or_eq_false_iff] at hc
        obtain ⟨hnear, hnb, hns⟩ := hc
        have hnb' : randomCell rnd g (pos0 + 2 * guard) ∉ blocks := by
          intro hm
          rw [(any_sameCell_iff _ _).2 hm] at hnb
          exact absurd hnb (by simp)
        have hns' : randomCell rnd g (pos0 + 2 * guard) ∉ snake := by
          intro hm
          rw [(any_sameCell_iff _ _).2 hm] at hns
          exact absurd hns (by simp)
        have hg : 1 ≤ g := obstacleTarget_pos g (by omega)
        refine ⟨?_, ?_, ?_⟩
        · simp only [List.length_append, List.length_singleton]; omega
        · rw [List.nodup_append]
          refine ⟨hb.2.1, List.nodup_singleton _, ?_⟩
          intro x hx hx2
          rw [List.mem_singleton] at hx2
          subst hx2
          exact hnb' hx
        · intro c hcm
          rcases List.mem_append.1 hcm with h | h
          · exact hb.2.2 c h
          · rw [List.mem_singleton] at h
            subst h
            exact ⟨randomCell_inGrid rnd g _ hg, hns', hnear⟩
      · exact step blocks hb
    · rw [if_neg hl]
      exact ⟨hb, by omega, fun h => absurd h hl⟩

theorem obstacleTarget_floor (g : Nat) :
    ((obstacleTarget g : Nat) : Int) = ⌊((g : ℚ) ^ 2 * (8 / 100))⌋ := by
  have h := Rat.floor_natCast_div_natCast (g * g * 8) 100
  have e : ((g : ℚ) ^ 2 * (8 / 100)) = (((g * g * 8 : Nat) : ℚ) / ((100 : Nat) : ℚ)) := by
    push_cast; ring
  rw [e, h]
  unfold obstacleTarget
  push_cast
  rfl

/-- C10: `generateObstacles` draws at most `target * 8` cells, where
`target = floor(gridSize^2 * 0.08)`, and returns at most `target` cells that are pairwise
distinct, lie on the grid, are not snake cells and are outside the start zone (no returned
cell has both `|x - c| < 3` and `|y - c| < 3` for `c = floor(gridSize / 2)`); it returns
fewer than `target` cells only when all `target * 8` draws have been made. The second
component of the result is the number of cells drawn, the final value of `guard`. -/
theorem generateObstacles_spec (rnd : Rng) (gridSize : Nat) (snake : List Cell) (pos0 : Nat) :
    ((obstacleTarget gridSize : Nat) : Int) = ⌊((gridSize : ℚ) ^ 2 * (8 / 100))⌋ ∧
    (generateObstacles rnd gridSize snake pos0).2 ≤ obstacleTarget gridSize * 8 ∧
    (generateObstacles rnd gridSize snake pos0).1.length ≤ obstacleTarget gridSize ∧
    (generateObstacles rnd gridSize snake pos0).1.Nodup ∧
    (∀ c ∈ (generateObstacles rnd gridSize snake pos0).1,
      InGrid gridSize c ∧ c ∉ snake ∧
      ¬ (|c.x - ((gridSize / 2 : Nat) : Int)| < 3 ∧ |c.y - ((gridSize / 2 : Nat) : Int)| < 3)) ∧
    ((generateObstacles rnd gridSize snake pos0).1.length < obstacleTarget gridSize →
      (generateObstacles rnd gridSize snake pos0).2 = obstacleTarget gridSize * 8) := by
  have h := generateObstaclesLoop_spec rnd gridSize snake pos0 (obstacleTarget gridSize * 8) 0 []
    ⟨by simp, List.nodup_nil, fun c hc => absurd hc (List.not_mem_nil c)⟩
  unfold generateObstacles
  refine ⟨obstacleTarget_floor gridSize, by simpa using h.2.1, h.1.1, h.1.2.1, ?_, ?_⟩
  · intro c hc
    have := h.1.2.2 c hc
    exact ⟨this.1, this.2.1, (isNearStart_false_iff _ _).1 this.2.2⟩
  · intro hl
    simpa using h.2.2 hl

/-- C10, worked example: on the 18 grid the target is 25; with the constant stream every
drawn cell is `(1,1)`, so the result is the single block `(1,1)` after all 200 draws. -/
theorem generateObstacles_spec_witness :
    obstacleTarget 18 = 25 ∧
      (generateObstacles constDraws 18
          [{ x := 9, y := 9 }, { x := 8, y := 9 }, { x := 7, y := 9 }] 0).1
        = [{ x := 1, y := 1 }] ∧
      (generateObstacles constDraws 18
          [{ x := 9, y := 9 }, { x := 8, y := 9 }, { x := 7, y := 9 }] 0).2 = 200 := by
  have h := (generateObstacles_spec constDraws 18
    [{ x := 9, y := 9 }, { x := 8, y := 9 }, { x := 7, y := 9 }] 0).2.2.2.2.2
  have h1 : (generateObstacles constDraws 18
      [{ x := 9, y := 9 }, { x := 8, y := 9 }, { x := 7, y := 9 }] 0).1
        = [{ x := 1, y := 1 }] := by decide!
  refine ⟨by decide, h1, ?_⟩
  rw [h (by rw [h1]; decide)]
  decide

/-! ## C11: the snake never overlaps itself -/

theorem resetState_snake (rnd : Rng) (s : State) :
    (resetState rnd s).snake =
      [{ x := ((s.gridSize / 2 : Nat) : Int), y := ((s.gridSize / 2 : Nat) : Int) },
        { x := ((s.gridSize / 2 : Nat) : Int) - 1, y := ((s.gridSize / 2 : Nat) : Int) },
        { x := ((s.gridSize / 2 : Nat) : Int) - 2, y := ((s.gridSize / 2 : Nat) : Int) }] := by
  unfold resetState spawnFood; dsimp only; split_ifs <;> rfl

theorem resetState_snake_distinct (rnd : Rng) (s : State) :
    (resetState rnd s).snake.Nodup ∧ 3 ≤ (resetState rnd s).snake.length := by
  rw [resetState_snake]
  refine ⟨?_, by simp⟩
  generalize ((s.gridSize / 2 : Nat) : Int) = c
  have h1 : c ≠ c - 1 := by omega
  have h2 : c ≠ c - 2 := by omega
  have h3 : c - 1 ≠ c - 2 := by omega
  simp [h1, h2, h3]

/-- The part of `tick` after the portal block keeps the snake duplicate-free and at least as
long as it was: the new head is committed only when it is no cell of the old snake. -/
theorem moveTo_snake_distinct (rnd : Rng) (s : State) (head : Cell) (now : ℚ)
    (hd : s.snake.Nodup) (hl : 3 ≤ s.snake.length) :
    (moveTo rnd s head now).snake.Nodup ∧ 3 ≤ (moveTo rnd s head now).snake.length := by
  rcases moveTo_cases rnd s head now with ⟨_, h⟩ | ⟨_, _, h⟩ | ⟨h1, _, _, h⟩ | ⟨h1, _, _, h⟩
  · rw [h]; exact ⟨hd, hl⟩
  · rw [h]; exact ⟨hd, hl⟩
  · rw [h, eatFood_snake]
    exact ⟨List.nodup_cons.2 ⟨h1, hd⟩, by simp only [List.length_cons]; omega⟩
  · rw [h]
    constructor
    · exact List.Nodup.sublist (List.dropLast_sublist _) (List.nodup_cons.2 ⟨h1, hd⟩)
    · show 3 ≤ (head :: s.snake).dropLast.length
      simp only [List.length_dropLast, List.length_cons]
      omega

/-- C11: in every state reached from `resetState` or `startGame` by `handleDirection` calls
and ticks, for every mode, wrap setting, grid size, portal pair and random stream, the cells
of the snake are pairwise distinct and the snake has at least 3 cells. -/
theorem snake_distinct (rnd : Rng) (s : State) (h : Reachable rnd s) :
    s.snake.Nodup ∧ 3 ≤ s.snake.length := by
  induction h with
  | reset s0 => exact resetState_snake_distinct rnd s0
  | start s0 now h0 => rw [startGame_eq rnd s0 now h0]; exact resetState_snake_distinct rnd s0
  | turn s x y _ ih => simpa using ih
  | tick s t step now _ ht ih =>
    rcases tick_some_cases rnd s t step now ht with ⟨_, rfl⟩ | ⟨_, _, rfl⟩ | ⟨_, head, _, rfl⟩
    · exact ih
    · simpa using ih
    · exact moveTo_snake_distinct rnd _ head now (by simpa using ih.1) (by simpa using ih.2)

/-- C11, worked example: the portals session after `portalLoop`, whose head went through a
portal, has the three distinct cells `(10,8)`, `(11,8)`, `(11,9)`. -/
theorem snake_distinct_witness :
    run portalDraws portalStart portalLoop = some (runD portalDraws portalStart portalLoop) ∧
      (runD portalDraws portalStart portalLoop).snake
        = [{ x := 10, y := 8 }, { x := 11, y := 8 }, { x := 11, y := 9 }] ∧
      (runD portalDraws portalStart portalLoop).snake.Nodup ∧
      3 ≤ (runD portalDraws portalStart portalLoop).snake.length := by
  have hrun : run portalDraws portalStart portalLoop
      = some (runD portalDraws portalStart portalLoop) := by decide!
  exact ⟨hrun, by decide!,
    snake_distinct portalDraws _
      (reachable_of_run portalDraws portalLoop portalStart _
        (Reachable.start (pageLoad Mode.portals 18 false) 0 rfl) hrun)⟩

/-! ## C12: the frame callback after the session has ended -/

/-- More fuel does not change a result the tick loop has reached. -/
theorem tickLoop_fuel_mono (rnd : Rng) (step : ℚ) (clock : Nat → ℚ) (m : Nat) :
    ∀ (fuel k : Nat) (s t : State), tickLoop rnd step clock fuel k s = some t →
      tickLoop rnd step clock (fuel + m) k s = some t := by
  intro fuel
  induction fuel with
  | zero =>
    intro k s t h
    unfold tickLoop at h
    by_cases hc : s.accumulator ≥ step
    · rw [if_pos hc] at h; exact absurd h (by simp)
    · rw [if_neg hc] at h
      cases m with
      | zero => unfold tickLoop; rw [if_neg hc]; exact h
      | succ n =>
        rw [Nat.zero_add]
        unfold tickLoop; rw [if_neg hc]; exact h
  | succ f ih =>
    intro k s t h
    rw [Nat.add_right_comm]
    unfold tickLoop at h ⊢
    by_cases hc : s.accumulator ≥ step
    · rw [if_pos hc] at h ⊢
      cases hu : tick rnd s step (clock k) with
      | none => rw [hu] at h; exact absurd h (by simp)
      | some u =>
        rw [hu] at h
        simp only [Option.some_bind] at h ⊢
        exact ih _ _ _ h
    · rw [if_neg hc] at h ⊢; exact h

/-- More fuel does not change a result the frame callback has reached. -/
theorem loop_fuel_mono (rnd : Rng) (s t : State) (timestamp : ℚ) (clock : Nat → ℚ)
    (fuel m : Nat) (h : loop rnd s timestamp clock fuel = some t) :
    loop rnd s timestamp clock (fuel + m) = some t := by
  unfold loop at h ⊢
  dsimp only at h ⊢
  split_ifs at h ⊢ with h1 h2 h3
  · exact h
  · exact h
  · exact h
  · exact tickLoop_fuel_mono rnd _ clock m fuel 0 _ t h

/-- C12, the code at the failing input. The classic session `classicStart` (grid 18, wrap
off, speed 7, so `step = 1/7`) is running with `stats.gamesPlayed = 0`. A first frame at
timestamp 1300 runs 9 ticks: the 9th hits the wall and ends the session with
`gamesPlayed = 1` and `totalTime = 9/7`. `tick` run on that stopped state ends the session
again, `gamesPlayed = 2`. A first frame at timestamp 1500 does exactly that: the loop runs a
10th tick after the terminating 9th, and the one session leaves `gamesPlayed = 2` and
`totalTime = 9/7 + 10/7`. The result is the same for every larger iteration bound. -/
theorem loop_ends_session_twice :
    classicStart.running = true ∧ classicStart.stats.gamesPlayed = 0 ∧
    (loop constDraws classicStart 1300 (fun _ => 1300) 9).map
        (fun t => (t.running, t.snake, t.stats.gamesPlayed, t.stats.totalTime))
      = some (false, [{ x := 17, y := 9 }, { x := 16, y := 9 }, { x := 15, y := 9 }], 1, 9 / 7) ∧
    ((loop constDraws classicStart 1300 (fun _ => 1300) 9).bind
        fun t => tick constDraws t (1 / 7) 1500).map
        (fun u => (u.running, u.stats.gamesPlayed))
      = some (false, 2) ∧
    (loop constDraws classicStart 1500 (fun _ => 1500) 10).map
        (fun t => (t.running, t.snake, t.stats.gamesPlayed, t.stats.totalTime))
      = some (false, [{ x := 17, y := 9 }, { x := 16, y := 9 }, { x := 15, y := 9 }], 2, 19 / 7) ∧
    (∀ m, loop constDraws classicStart 1500 (fun _ => 1500) (10 + m)
      = loop constDraws classicStart 1500 (fun _ => 1500) 10) := by
  refine ⟨by decide!, by decide!, by decide!, by decide!, by decide!, fun m => ?_⟩
  cases h : loop constDraws classicStart 1500 (fun _ => 1500) 10 with
  | none => exact absurd h (by decide!)
  | some t => exact loop_fuel_mono _ _ _ _ _ _ m h

end Snake
